import Mathlib

/-!
# Broad-phase dispatch layer of ipc-toolkit (`src/broad_phase/broad_phase.cpp`)

Shallow embedding of `build_ignore_vertices` and of the overloads of
`construct_collision_candidates`, followed by theorems about them.

Modelling conventions.

* `assert(c)` is modelled as a checked precondition: when `c` is false the
  function stops with a `Failure` naming the asserted expression (the
  behaviour of a build in which assertions are enabled).
* `Eigen::VectorXi` / `Eigen::MatrixXi` hold C++ `int`s, modelled as `Int`.
  Where the source compares such an entry with a `size_t`, or uses it as a
  `std::vector` subscript, the implicit conversion is `to_size_t`
  (reduction modulo `2^64`).  `int dim = V.cols()` is the conversion `to_int`
  (two's complement reduction to 32 bits).
* `double` is an abstract scalar type `S`: the dispatcher never computes with
  coordinates or with the inflation radius, it only forwards them.
* The three backends (`detect_collision_candidates_brute_force`, `HashGrid`,
  `SpatialHash`) are not part of this translation unit.  They are a parameter
  `Backend` of the dispatcher.  Every backend entry point may fail.
* The dispatcher's result is a `Traced` value: the outcome together with the
  ordered log of the backend entry points it invoked and the arguments it
  handed to them.
-/

namespace ipc

/-! ## Data model -/

/-- Dense matrix with run-time shape, as `Eigen::Matrix<α, Dynamic, Dynamic>`:
`coeff i j` is the entry in row `i` and column `j`; only entries with
`i < rows` and `j < cols` belong to the matrix. -/
structure DenseMatrix (α : Type) where
  rows : Nat
  cols : Nat
  coeff : Nat → Nat → α

/-- The type `Eigen::MatrixXd`, over the abstract scalar `S` standing for `double`. -/
abbrev MatrixXd (S : Type) := DenseMatrix S

/-- The type `Eigen::MatrixXi`: entries are C++ `int`s. -/
abbrev MatrixXi := DenseMatrix Int

/-- The type `Eigen::VectorXi`: `size` entries `coeff 0 … coeff (size - 1)`. -/
structure VectorXi where
  size : Nat
  coeff : Nat → Int

/-- The default-constructed `Eigen::VectorXi()`: no entries. -/
def VectorXi.empty : VectorXi := ⟨0, fun _ => 0⟩

/-- Vector holding the entries of a list, in order. -/
def VectorXi.ofList (l : List Int) : VectorXi := ⟨l.length, fun i => l.getD i 0⟩

/-- Matrix with the given number of columns whose rows are the given lists. -/
def DenseMatrix.ofRows {α : Type} (cols : Nat) (dflt : α) (rs : List (List α)) :
    DenseMatrix α :=
  ⟨rs.length, cols, fun i j => (rs.getD i []).getD j dflt⟩

/-- Implicit conversion of a signed integer to `size_t` (64 bit). -/
def to_size_t (x : Int) : Nat := (x % 2 ^ 64).toNat

/-- Implicit conversion of an `Eigen::Index` to `int` (32 bit, two's complement). -/
def to_int (x : Int) : Int := (x + 2 ^ 31) % 2 ^ 32 - 2 ^ 31

/-- The integer `x` is an entry of the vector. -/
def VectorXi.has_entry (c : VectorXi) (x : Int) : Prop :=
  ∃ i, i < c.size ∧ c.coeff i = x

/-- The integer `x` is an entry of the matrix. -/
def DenseMatrix.has_entry (E : DenseMatrix Int) (x : Int) : Prop :=
  ∃ ei, ei < E.rows ∧ ∃ ej, ej < E.cols ∧ E.coeff ei ej = x

/-- Every entry of the vector is a vertex index of a mesh with `n` vertices. -/
def VectorXi.in_range (c : VectorXi) (n : Nat) : Prop :=
  ∀ i, i < c.size → 0 ≤ c.coeff i ∧ c.coeff i < n

/-- Every entry of the matrix is a vertex index of a mesh with `n` vertices. -/
def DenseMatrix.in_range (E : DenseMatrix Int) (n : Nat) : Prop :=
  ∀ ei, ei < E.rows → ∀ ej, ej < E.cols → 0 ≤ E.coeff ei ej ∧ E.coeff ei ej < n

instance (c : VectorXi) (x : Int) : Decidable (c.has_entry x) :=
  inferInstanceAs (Decidable (∃ i, i < c.size ∧ c.coeff i = x))

instance (E : DenseMatrix Int) (x : Int) : Decidable (E.has_entry x) :=
  inferInstanceAs (Decidable (∃ ei, ei < E.rows ∧ ∃ ej, ej < E.cols ∧ E.coeff ei ej = x))

instance (c : VectorXi) (n : Nat) : Decidable (c.in_range n) :=
  inferInstanceAs (Decidable (∀ i, i < c.size → 0 ≤ c.coeff i ∧ c.coeff i < n))

instance (E : DenseMatrix Int) (n : Nat) : Decidable (E.in_range n) :=
  inferInstanceAs (Decidable (∀ ei, ei < E.rows → ∀ ej, ej < E.cols →
    0 ≤ E.coeff ei ej ∧ E.coeff ei ej < n))

/-- Reasons for which a call stops without a result: one constructor for each
`assert` of the translation unit, named after the asserted expression, and one
for a failure raised inside a backend. -/
inductive Failure where
  /-- The assertion `assert(codim_V(i) < num_vertices)` in `build_ignore_vertices`. -/
  | codim_index_assert
  /-- The assertion `assert(E(ei, ej) < num_vertices)` in `build_ignore_vertices`. -/
  | edge_index_assert
  /-- The assertion `assert(V1.cols() == dim)` in the continuous dispatcher. -/
  | cols_assert
  /-- The assertion `assert(include_all_vertices)` in the `SPATIAL_HASH` case. -/
  | include_all_vertices_assert
  /-- Failure raised by a backend entry point. -/
  | backend (code : Nat)
  deriving DecidableEq

/-! ## `build_ignore_vertices` -/

/-- The call `v.resize(n, value)` of `std::vector`: keep the first `n` entries,
pad with `value` up to length `n`. -/
def vector_resize (v : List Bool) (n : Nat) (value : Bool) : List Bool :=
  v.take n ++ List.replicate (n - v.length) value

/-- One loop body of `build_ignore_vertices`:
`assert(x < num_vertices); ignore_vertex[x] = false;`. -/
def mark_vertex (on_fail : Failure) (num_vertices : Nat) (ignore_vertex : List Bool)
    (x : Int) : Except Failure (List Bool) :=
  if to_size_t x < num_vertices then
    .ok (ignore_vertex.set (to_size_t x) false)
  else
    .error on_fail

/-- Source lines 9-27.  The in/out parameter `ignore_vertex` is an argument and
the result. -/
def build_ignore_vertices (num_vertices : Nat) (codim_V : VectorXi) (E : MatrixXi)
    (ignore_vertex : List Bool) : Except Failure (List Bool) := do
  let ignore_vertex := vector_resize ignore_vertex num_vertices true
  let ignore_vertex ← (List.range codim_V.size).foldlM
    (fun m i => mark_vertex .codim_index_assert num_vertices m (codim_V.coeff i))
    ignore_vertex
  -- Column first because colmajor
  (List.range E.cols).foldlM
    (fun m ej => (List.range E.rows).foldlM
      (fun m ei => mark_vertex .edge_index_assert num_vertices m (E.coeff ei ej)) m)
    ignore_vertex

/-! ## Candidate set -/

/-- Modelled from the spec: an element of the vertex-edge sequence of the
Candidate Set, an edge index paired with a vertex index (the type is declared
in a header outside this translation unit). -/
structure EdgeVertexCandidate where
  edge_index : Nat
  vertex_index : Nat
  deriving DecidableEq

/-- Modelled from the spec: an element of the edge-edge sequence of the
Candidate Set, a pair of edge indices. -/
structure EdgeEdgeCandidate where
  edge0_index : Nat
  edge1_index : Nat
  deriving DecidableEq

/-- Modelled from the spec: an element of the face-vertex sequence of the
Candidate Set, a face index paired with a vertex index. -/
structure FaceVertexCandidate where
  face_index : Nat
  vertex_index : Nat
  deriving DecidableEq

/-- Modelled from the spec: the Candidate Set, three independent ordered
sequences.  The field names are the ones the dispatcher uses
(`candidates.ev_candidates`, `candidates.ee_candidates`,
`candidates.fv_candidates`). -/
structure Candidates where
  ev_candidates : List EdgeVertexCandidate
  ee_candidates : List EdgeEdgeCandidate
  fv_candidates : List FaceVertexCandidate
  deriving DecidableEq

/-- Modelled from the spec: `candidates.clear()` empties the three sequences. -/
def Candidates.clear (_candidates : Candidates) : Candidates := ⟨[], [], []⟩

/-- The enumeration `BroadPhaseMethod`. -/
inductive BroadPhaseMethod where
  | BRUTE_FORCE
  | HASH_GRID
  | SPATIAL_HASH
  deriving DecidableEq

/-! ## Backends -/

/-- Vertex argument of a backend entry point.  Each entry point that takes
vertex positions is overloaded in C++ on one matrix `V` (static) and on two
matrices `V0, V1` (continuous); the pair of overloads is one entry point taking
a `Vertices`. -/
inductive Vertices (S : Type) where
  | fixed (V : MatrixXd S)
  | swept (V0 V1 : MatrixXd S)

/-- A backend entry point invoked by the dispatcher, with the arguments of the
invocation (the receiver object of a member function is left out). -/
inductive Call (S : Type) where
  | detect_collision_candidates_brute_force (P : Vertices S) (E F : MatrixXi)
      (candidates : Candidates)
      (detect_edge_vertex detect_edge_edge detect_face_vertex perform_aabb_check : Bool)
      (aabb_inflation_radius : S) (can_collide : Nat → Nat → Bool)
  /-- Default construction `HashGrid hash_grid;`. -/
  | HashGrid
  | resize (P : Vertices S) (E : MatrixXi) (inflation_radius : S)
  | addVertices (P : Vertices S) (inflation_radius : S)
  | addVerticesFromEdges (P : Vertices S) (E : MatrixXi) (inflation_radius : S)
  | addSelectVertices (P : Vertices S) (codim_V : VectorXi) (inflation_radius : S)
  | addEdges (P : Vertices S) (E : MatrixXi) (inflation_radius : S)
  | addFaces (P : Vertices S) (F : MatrixXi) (inflation_radius : S)
  | getVertexEdgePairs (E : MatrixXi) (ev_candidates : List EdgeVertexCandidate)
      (can_collide : Nat → Nat → Bool)
  | getEdgeEdgePairs (E : MatrixXi) (ee_candidates : List EdgeEdgeCandidate)
      (can_collide : Nat → Nat → Bool)
  | getFaceVertexPairs (F : MatrixXi) (fv_candidates : List FaceVertexCandidate)
      (can_collide : Nat → Nat → Bool)
  /-- Construction `SpatialHash sh(V, E, F, inflation_radius)`. -/
  | SpatialHash (P : Vertices S) (E F : MatrixXi) (inflation_radius : S)
  | queryMeshForCandidates (P : Vertices S) (E F : MatrixXi) (candidates : Candidates)
      (queryEV queryEE queryFV : Bool)

/-- The backends used by the dispatcher, as a parameter.  `G` is the state of a
`HashGrid` object and `H` the state of a `SpatialHash` object.  An output
parameter passed by reference is an argument and a component of the result; a
member function returns the new state of its object. -/
structure Backend (S G H : Type) where
  detect_collision_candidates_brute_force :
    Vertices S → MatrixXi → MatrixXi → Candidates → Bool → Bool → Bool → Bool → S →
      (Nat → Nat → Bool) → Except Failure Candidates
  HashGrid : Except Failure G
  resize : G → Vertices S → MatrixXi → S → Except Failure G
  addVertices : G → Vertices S → S → Except Failure G
  addVerticesFromEdges : G → Vertices S → MatrixXi → S → Except Failure G
  addSelectVertices : G → Vertices S → VectorXi → S → Except Failure G
  addEdges : G → Vertices S → MatrixXi → S → Except Failure G
  addFaces : G → Vertices S → MatrixXi → S → Except Failure G
  getVertexEdgePairs : G → MatrixXi → List EdgeVertexCandidate → (Nat → Nat → Bool) →
    Except Failure (G × List EdgeVertexCandidate)
  getEdgeEdgePairs : G → MatrixXi → List EdgeEdgeCandidate → (Nat → Nat → Bool) →
    Except Failure (G × List EdgeEdgeCandidate)
  getFaceVertexPairs : G → MatrixXi → List FaceVertexCandidate → (Nat → Nat → Bool) →
    Except Failure (G × List FaceVertexCandidate)
  SpatialHash : Vertices S → MatrixXi → MatrixXi → S → Except Failure H
  queryMeshForCandidates : H → Vertices S → MatrixXi → MatrixXi → Candidates →
    Bool → Bool → Bool → Except Failure (H × Candidates)

/-! ## Traced computations -/

/-- Result of running the dispatcher: the backend invocations it made, in
order, and its outcome. -/
structure Traced (S : Type) (α : Type) where
  calls : List (Call S)
  outcome : Except Failure α

/-- Sequencing: the second part runs only when the first one has a result. -/
def Traced.bind {S α β : Type} (x : Traced S α) (f : α → Traced S β) : Traced S β :=
  match x.outcome with
  | .error e => ⟨x.calls, .error e⟩
  | .ok a => ⟨x.calls ++ (f a).calls, (f a).outcome⟩

instance (S : Type) : Monad (Traced S) where
  pure a := ⟨[], .ok a⟩
  bind := Traced.bind

/-- A step that invokes no backend. -/
def Traced.lift {S α : Type} (r : Except Failure α) : Traced S α := ⟨[], r⟩

/-- Invocation of the backend entry point `c`, whose result is `r`. -/
def Traced.invoke {S α : Type} (c : Call S) (r : Except Failure α) : Traced S α := ⟨[c], r⟩

/-- The statement `assert(c)`. -/
def Traced.assert {S : Type} (c : Bool) (on_fail : Failure) : Traced S Unit :=
  ⟨[], if c then .ok () else .error on_fail⟩

/-! ## The dispatcher -/

/-- The lambda `adjusted_can_collide` (source lines 50-54 and 158-162) with its
captures as arguments.  The subscript `ignore_vertex[v]` of an index beyond the
vector, which C++ leaves undefined, reads `true`. -/
def adjusted_can_collide (ignore_vertex : List Bool) (can_collide : Nat → Nat → Bool)
    (vi vj : Nat) : Bool :=
  (ignore_vertex.isEmpty
      || (!ignore_vertex.getD vi true && !ignore_vertex.getD vj true))
    && can_collide vi vj

/-- Source lines 29-104: the static dispatcher.  The in/out parameter
`candidates` is an argument and the result. -/
def construct_collision_candidates {S G H : Type} (B : Backend S G H)
    (V : MatrixXd S) (codim_V : VectorXi) (include_all_vertices : Bool)
    (E F : MatrixXi) (candidates : Candidates) (inflation_radius : S)
    (method : BroadPhaseMethod) (can_collide : Nat → Nat → Bool) :
    Traced S Candidates := do
  let dim : Int := to_int V.cols
  let candidates := candidates.clear
  match method with
  | .BRUTE_FORCE =>
    let ignore_vertex ← Traced.lift
      (if !include_all_vertices then build_ignore_vertices V.rows codim_V E []
       else pure [])
    Traced.invoke
      (.detect_collision_candidates_brute_force (.fixed V) E F candidates
        (dim == 2) (dim == 3) (dim == 3) true inflation_radius
        (adjusted_can_collide ignore_vertex can_collide))
      (B.detect_collision_candidates_brute_force (.fixed V) E F candidates
        (dim == 2) (dim == 3) (dim == 3) true inflation_radius
        (adjusted_can_collide ignore_vertex can_collide))
  | .HASH_GRID =>
    let hash_grid ← Traced.invoke .HashGrid B.HashGrid
    let hash_grid ← Traced.invoke (.resize (.fixed V) E inflation_radius)
      (B.resize hash_grid (.fixed V) E inflation_radius)
    -- Assumes the edges connect to all boundary vertices
    let hash_grid ←
      (if include_all_vertices then
        Traced.invoke (.addVertices (.fixed V) inflation_radius)
          (B.addVertices hash_grid (.fixed V) inflation_radius)
      else do
        let hash_grid ← Traced.invoke (.addVerticesFromEdges (.fixed V) E inflation_radius)
          (B.addVerticesFromEdges hash_grid (.fixed V) E inflation_radius)
        Traced.invoke (.addSelectVertices (.fixed V) codim_V inflation_radius)
          (B.addSelectVertices hash_grid (.fixed V) codim_V inflation_radius))
    let hash_grid ← Traced.invoke (.addEdges (.fixed V) E inflation_radius)
      (B.addEdges hash_grid (.fixed V) E inflation_radius)
    let hash_grid ←
      (if dim == 3 then
        -- These are not needed for 2D
        Traced.invoke (.addFaces (.fixed V) F inflation_radius)
          (B.addFaces hash_grid (.fixed V) F inflation_radius)
      else pure hash_grid)
    if dim == 2 then
      -- This is not needed for 3D
      let (_, ev) ← Traced.invoke (.getVertexEdgePairs E candidates.ev_candidates can_collide)
        (B.getVertexEdgePairs hash_grid E candidates.ev_candidates can_collide)
      pure { candidates with ev_candidates := ev }
    else
      -- These are not needed for 2D
      let (hash_grid, ee) ← Traced.invoke (.getEdgeEdgePairs E candidates.ee_candidates can_collide)
        (B.getEdgeEdgePairs hash_grid E candidates.ee_candidates can_collide)
      let candidates := { candidates with ee_candidates := ee }
      let (_, fv) ← Traced.invoke (.getFaceVertexPairs F candidates.fv_candidates can_collide)
        (B.getFaceVertexPairs hash_grid F candidates.fv_candidates can_collide)
      pure { candidates with fv_candidates := fv }
  | .SPATIAL_HASH =>
    -- TODO: Use include_all_vertices and codim_V
    Traced.assert include_all_vertices .include_all_vertices_assert
    -- TODO: Use can_collide
    let sh ← Traced.invoke (.SpatialHash (.fixed V) E F inflation_radius)
      (B.SpatialHash (.fixed V) E F inflation_radius)
    let (_, candidates) ← Traced.invoke
      (.queryMeshForCandidates (.fixed V) E F candidates (dim == 2) (dim == 3) (dim == 3))
      (B.queryMeshForCandidates sh (.fixed V) E F candidates (dim == 2) (dim == 3) (dim == 3))
    pure candidates

/-- Source lines 106-118: the static overload without `codim_V` and without
`include_all_vertices`. -/
def construct_collision_candidates_mesh {S G H : Type} (B : Backend S G H)
    (V : MatrixXd S) (E F : MatrixXi) (candidates : Candidates) (inflation_radius : S)
    (method : BroadPhaseMethod) (can_collide : Nat → Nat → Bool) :
    Traced S Candidates :=
  construct_collision_candidates B V VectorXi.empty true E F candidates
    inflation_radius method can_collide

/-- Source lines 120-133: the static overload with `codim_V` and without
`include_all_vertices`. -/
def construct_collision_candidates_codim {S G H : Type} (B : Backend S G H)
    (V : MatrixXd S) (codim_V : VectorXi) (E F : MatrixXi) (candidates : Candidates)
    (inflation_radius : S) (method : BroadPhaseMethod) (can_collide : Nat → Nat → Bool) :
    Traced S Candidates :=
  construct_collision_candidates B V codim_V false E F candidates
    inflation_radius method can_collide

/-- Source lines 135-212: the continuous dispatcher. -/
def construct_collision_candidates_continuous {S G H : Type} (B : Backend S G H)
    (V0 V1 : MatrixXd S) (codim_V : VectorXi) (include_all_vertices : Bool)
    (E F : MatrixXi) (candidates : Candidates) (inflation_radius : S)
    (method : BroadPhaseMethod) (can_collide : Nat → Nat → Bool) :
    Traced S Candidates := do
  let dim : Int := to_int V0.cols
  Traced.assert ((V1.cols : Int) == dim) .cols_assert
  let candidates := candidates.clear
  match method with
  | .BRUTE_FORCE =>
    let ignore_vertex ← Traced.lift
      (if !include_all_vertices then build_ignore_vertices V0.rows codim_V E []
       else pure [])
    Traced.invoke
      (.detect_collision_candidates_brute_force (.swept V0 V1) E F candidates
        (dim == 2) (dim == 3) (dim == 3) true inflation_radius
        (adjusted_can_collide ignore_vertex can_collide))
      (B.detect_collision_candidates_brute_force (.swept V0 V1) E F candidates
        (dim == 2) (dim == 3) (dim == 3) true inflation_radius
        (adjusted_can_collide ignore_vertex can_collide))
  | .HASH_GRID =>
    let hash_grid ← Traced.invoke .HashGrid B.HashGrid
    let hash_grid ← Traced.invoke (.resize (.swept V0 V1) E inflation_radius)
      (B.resize hash_grid (.swept V0 V1) E inflation_radius)
    -- Assumes the edges connect to all boundary vertices
    let hash_grid ←
      (if include_all_vertices then
        Traced.invoke (.addVertices (.swept V0 V1) inflation_radius)
          (B.addVertices hash_grid (.swept V0 V1) inflation_radius)
      else do
        let hash_grid ← Traced.invoke (.addVerticesFromEdges (.swept V0 V1) E inflation_radius)
          (B.addVerticesFromEdges hash_grid (.swept V0 V1) E inflation_radius)
        Traced.invoke (.addSelectVertices (.swept V0 V1) codim_V inflation_radius)
          (B.addSelectVertices hash_grid (.swept V0 V1) codim_V inflation_radius))
    let hash_grid ← Traced.invoke (.addEdges (.swept V0 V1) E inflation_radius)
      (B.addEdges hash_grid (.swept V0 V1) E inflation_radius)
    let hash_grid ←
      (if dim == 3 then
        -- These are not needed for 2D
        Traced.invoke (.addFaces (.swept V0 V1) F inflation_radius)
          (B.addFaces hash_grid (.swept V0 V1) F inflation_radius)
      else pure hash_grid)
    if dim == 2 then
      -- This is not needed for 3D
      let (_, ev) ← Traced.invoke (.getVertexEdgePairs E candidates.ev_candidates can_collide)
        (B.getVertexEdgePairs hash_grid E candidates.ev_candidates can_collide)
      pure { candidates with ev_candidates := ev }
    else
      -- These are not needed for 2D
      let (hash_grid, ee) ← Traced.invoke (.getEdgeEdgePairs E candidates.ee_candidates can_collide)
        (B.getEdgeEdgePairs hash_grid E candidates.ee_candidates can_collide)
      let candidates := { candidates with ee_candidates := ee }
      let (_, fv) ← Traced.invoke (.getFaceVertexPairs F candidates.fv_candidates can_collide)
        (B.getFaceVertexPairs hash_grid F candidates.fv_candidates can_collide)
      pure { candidates with fv_candidates := fv }
  | .SPATIAL_HASH =>
    -- TODO: Use include_all_vertices and codim_V
    Traced.assert include_all_vertices .include_all_vertices_assert
    -- TODO: Use can_collide
    let sh ← Traced.invoke (.SpatialHash (.swept V0 V1) E F inflation_radius)
      (B.SpatialHash (.swept V0 V1) E F inflation_radius)
    let (_, candidates) ← Traced.invoke
      (.queryMeshForCandidates (.swept V0 V1) E F candidates (dim == 2) (dim == 3) (dim == 3))
      (B.queryMeshForCandidates sh (.swept V0 V1) E F candidates (dim == 2) (dim == 3) (dim == 3))
    pure candidates

/-- Source lines 214-227: the continuous overload without `codim_V` and without
`include_all_vertices`. -/
def construct_collision_candidates_continuous_mesh {S G H : Type} (B : Backend S G H)
    (V0 V1 : MatrixXd S) (E F : MatrixXi) (candidates : Candidates)
    (inflation_radius : S) (method : BroadPhaseMethod) (can_collide : Nat → Nat → Bool) :
    Traced S Candidates :=
  construct_collision_candidates_continuous B V0 V1 VectorXi.empty true E F candidates
    inflation_radius method can_collide

/-- Source lines 229-243: the continuous overload with `codim_V` and without
`include_all_vertices`. -/
def construct_collision_candidates_continuous_codim {S G H : Type} (B : Backend S G H)
    (V0 V1 : MatrixXd S) (codim_V : VectorXi) (E F : MatrixXi) (candidates : Candidates)
    (inflation_radius : S) (method : BroadPhaseMethod) (can_collide : Nat → Nat → Bool) :
    Traced S Candidates :=
  construct_collision_candidates_continuous B V0 V1 codim_V false E F candidates
    inflation_radius method can_collide

/-! ## Definitions used in the statements -/

/-- The mask entry `v` is "included". -/
abbrev included (mask : List Bool) (v : Nat) : Prop := mask[v]? = some false

/-- The number of vertices the dispatcher derives from its vertex argument:
`V.rows()` in the static dispatcher, `V0.rows()` in the continuous one. -/
def Vertices.num_vertices {S : Type} : Vertices S → Nat
  | .fixed V => V.rows
  | .swept V0 _ => V0.rows

/-- The `switch (method)` statement, which is the same text in the static
dispatcher (source lines 44-103) and in the continuous one (lines 152-211) up
to the vertex argument: `P` is `V` resp. `V0, V1`, `num_vertices` is `V.rows()`
resp. `V0.rows()`, and `candidates` is the cleared candidate set.  The two
dispatchers are proved equal to it (`construct_collision_candidates_eq`,
`construct_collision_candidates_continuous_eq`). -/
def switch_method {S G H : Type} (B : Backend S G H) (P : Vertices S)
    (num_vertices : Nat) (dim : Int) (codim_V : VectorXi) (include_all_vertices : Bool)
    (E F : MatrixXi) (candidates : Candidates) (inflation_radius : S)
    (method : BroadPhaseMethod) (can_collide : Nat → Nat → Bool) : Traced S Candidates :=
  match method with
  | .BRUTE_FORCE =>
    Traced.bind
      (Traced.lift (if !include_all_vertices then
        build_ignore_vertices num_vertices codim_V E [] else pure []))
      fun ignore_vertex =>
    Traced.invoke
      (.detect_collision_candidates_brute_force P E F candidates
        (dim == 2) (dim == 3) (dim == 3) true inflation_radius
        (adjusted_can_collide ignore_vertex can_collide))
      (B.detect_collision_candidates_brute_force P E F candidates
        (dim == 2) (dim == 3) (dim == 3) true inflation_radius
        (adjusted_can_collide ignore_vertex can_collide))
  | .HASH_GRID =>
    Traced.bind (Traced.invoke .HashGrid B.HashGrid) fun hash_grid =>
    Traced.bind (Traced.invoke (.resize P E inflation_radius)
      (B.resize hash_grid P E inflation_radius)) fun hash_grid =>
    Traced.bind
      (if include_all_vertices then
        Traced.invoke (.addVertices P inflation_radius)
          (B.addVertices hash_grid P inflation_radius)
      else
        Traced.bind (Traced.invoke (.addVerticesFromEdges P E inflation_radius)
          (B.addVerticesFromEdges hash_grid P E inflation_radius)) fun hash_grid =>
        Traced.invoke (.addSelectVertices P codim_V inflation_radius)
          (B.addSelectVertices hash_grid P codim_V inflation_radius)) fun hash_grid =>
    Traced.bind (Traced.invoke (.addEdges P E inflation_radius)
      (B.addEdges hash_grid P E inflation_radius)) fun hash_grid =>
    Traced.bind
      (if dim == 3 then
        Traced.invoke (.addFaces P F inflation_radius)
          (B.addFaces hash_grid P F inflation_radius)
      else ⟨[], .ok hash_grid⟩) fun hash_grid =>
    if dim == 2 then
      Traced.bind (Traced.invoke (.getVertexEdgePairs E candidates.ev_candidates can_collide)
        (B.getVertexEdgePairs hash_grid E candidates.ev_candidates can_collide)) fun r =>
      ⟨[], .ok { candidates with ev_candidates := r.2 }⟩
    else
      Traced.bind (Traced.invoke (.getEdgeEdgePairs E candidates.ee_candidates can_collide)
        (B.getEdgeEdgePairs hash_grid E candidates.ee_candidates can_collide)) fun r =>
      Traced.bind (Traced.invoke (.getFaceVertexPairs F candidates.fv_candidates can_collide)
        (B.getFaceVertexPairs r.1 F candidates.fv_candidates can_collide)) fun r' =>
      ⟨[], .ok { candidates with ee_candidates := r.2, fv_candidates := r'.2 }⟩
  | .SPATIAL_HASH =>
    Traced.bind (Traced.assert include_all_vertices .include_all_vertices_assert) fun _ =>
    Traced.bind (Traced.invoke (.SpatialHash P E F inflation_radius)
      (B.SpatialHash P E F inflation_radius)) fun sh =>
    Traced.bind (Traced.invoke
      (.queryMeshForCandidates P E F candidates (dim == 2) (dim == 3) (dim == 3))
      (B.queryMeshForCandidates sh P E F candidates (dim == 2) (dim == 3) (dim == 3))) fun r =>
    ⟨[], .ok r.2⟩

/-- The candidate sequences handed to a backend entry point are all empty. -/
def Call.receives_empty {S : Type} : Call S → Prop
  | .detect_collision_candidates_brute_force _ _ _ candidates _ _ _ _ _ _ =>
    candidates = ⟨[], [], []⟩
  | .getVertexEdgePairs _ ev_candidates _ => ev_candidates = []
  | .getEdgeEdgePairs _ ee_candidates _ => ee_candidates = []
  | .getFaceVertexPairs _ fv_candidates _ => fv_candidates = []
  | .queryMeshForCandidates _ _ _ candidates _ _ _ => candidates = ⟨[], [], []⟩
  | _ => True

/-- The entries of a matrix, as `size_t` subscripts. -/
def DenseMatrix.subscripts (E : DenseMatrix Int) : List Nat :=
  (List.range E.rows).flatMap fun ei => (List.range E.cols).map fun ej => to_size_t (E.coeff ei ej)

/-- The entries of a vector, as `size_t` subscripts. -/
def VectorXi.subscripts (c : VectorXi) : List Nat :=
  (List.range c.size).map fun i => to_size_t (c.coeff i)

/-- Modelled from the spec: the vertex indices that a hash-grid insertion
stores as vertex primitives (the `HashGrid` member functions are defined
outside this translation unit).  `insert-vertices` stores every vertex,
`insert-vertices-from-edges` the endpoints of the edges, and
`insert-selected-vertices` the selection; no other entry point stores a
vertex primitive. -/
def Call.inserted_vertices {S : Type} : Call S → List Nat
  | .addVertices P _ => List.range P.num_vertices
  | .addVerticesFromEdges _ E _ => E.subscripts
  | .addSelectVertices _ codim_V _ => codim_V.subscripts
  | _ => []

/-- The invocation inserts the edges `E` as edge primitives. -/
def Call.inserts_edges {S : Type} (E : MatrixXi) : Call S → Prop
  | .addEdges _ E' _ => E' = E
  | _ => False

/-- The invocation inserts face primitives. -/
def Call.inserts_faces {S : Type} : Call S → Prop
  | .addFaces _ _ _ => True
  | _ => False

/-- A backend leaves a category of the candidate set as it received it when the
flag of that category is off. -/
def Backend.respects_flags {S G H : Type} (B : Backend S G H) : Prop :=
  (∀ P E F c ev ee fv aabb r pred c',
    B.detect_collision_candidates_brute_force P E F c ev ee fv aabb r pred = .ok c' →
      (ev = false → c'.ev_candidates = c.ev_candidates) ∧
      (ee = false → c'.ee_candidates = c.ee_candidates) ∧
      (fv = false → c'.fv_candidates = c.fv_candidates)) ∧
  (∀ sh P E F c ev ee fv r,
    B.queryMeshForCandidates sh P E F c ev ee fv = .ok r →
      (ev = false → r.2.ev_candidates = c.ev_candidates) ∧
      (ee = false → r.2.ee_candidates = c.ee_candidates) ∧
      (fv = false → r.2.fv_candidates = c.fv_candidates))

/-- The vertex `v` is an endpoint of an edge or listed in `codim_V`. -/
abbrev eligible (codim_V : VectorXi) (E : MatrixXi) (v : Nat) : Prop :=
  codim_V.has_entry v ∨ E.has_entry v

/-- The backend invocations of a hash-grid call that returns. -/
def hash_grid_calls {S : Type} (P : Vertices S) (dim : Int) (codim_V : VectorXi)
    (include_all_vertices : Bool) (E F : MatrixXi) (inflation_radius : S)
    (can_collide : Nat → Nat → Bool) : List (Call S) :=
  [.HashGrid, .resize P E inflation_radius] ++
    (if include_all_vertices then [.addVertices P inflation_radius]
     else [.addVerticesFromEdges P E inflation_radius,
       .addSelectVertices P codim_V inflation_radius]) ++
    [.addEdges P E inflation_radius] ++
    (if dim == 3 then [.addFaces P F inflation_radius] else []) ++
    (if dim == 2 then [.getVertexEdgePairs E [] can_collide]
     else [.getEdgeEdgePairs E [] can_collide, .getFaceVertexPairs F [] can_collide])

/-- The vertex indices stored as vertex primitives by a sequence of backend
invocations. -/
def inserted_vertices {S : Type} (calls : List (Call S)) : List Nat :=
  calls.flatMap Call.inserted_vertices

/-- What C10 says of the backend invocations `calls` of a hash-grid call, for
the mask `mask` of the same vertex count, `codim_V` and `E`. -/
def insertion_mirrors_mask {S : Type} (mask : List Bool) (num_vertices : Nat) (dim : Int)
    (include_all_vertices : Bool) (E : MatrixXi) (calls : List (Call S)) : Prop :=
  (include_all_vertices = false →
    ∀ v, v ∈ inserted_vertices calls ↔ mask[v]? = some false) ∧
  (include_all_vertices = true →
    ∀ v, v < num_vertices → v ∈ inserted_vertices calls) ∧
  (∃ call ∈ calls, call.inserts_edges E) ∧
  ((∃ call ∈ calls, call.inserts_faces) ↔ dim = 3)

/-! ## A reference backend

An executable backend used to instantiate the theorems at concrete inputs.  It
ignores positions, so every pair of primitives counts as close; it keeps the
pairs that the eligibility predicate admits. -/

/-- State of the reference hash grid: the vertex, edge and face indices inserted
so far. -/
structure RefGrid where
  vertices : List Nat
  edges : List Nat
  faces : List Nat
  deriving DecidableEq

/-- Edge-vertex pairs over the given edges and vertices: the vertex is not an
endpoint of the edge and may collide with both endpoints. -/
def ref_ev (edges vertices : List Nat) (E : MatrixXi) (pred : Nat → Nat → Bool) :
    List EdgeVertexCandidate :=
  (edges.flatMap fun e => vertices.map fun v => (⟨e, v⟩ : EdgeVertexCandidate)).filter fun p =>
    to_size_t (E.coeff p.edge_index 0) != p.vertex_index
      && to_size_t (E.coeff p.edge_index 1) != p.vertex_index
      && pred p.vertex_index (to_size_t (E.coeff p.edge_index 0))
      && pred p.vertex_index (to_size_t (E.coeff p.edge_index 1))

/-- Edge-edge pairs `e0 < e1` over the given edges whose first endpoints may
collide. -/
def ref_ee (edges : List Nat) (E : MatrixXi) (pred : Nat → Nat → Bool) :
    List EdgeEdgeCandidate :=
  (edges.flatMap fun e0 => edges.map fun e1 => (⟨e0, e1⟩ : EdgeEdgeCandidate)).filter fun p =>
    decide (p.edge0_index < p.edge1_index)
      && pred (to_size_t (E.coeff p.edge0_index 0)) (to_size_t (E.coeff p.edge1_index 0))

/-- Face-vertex pairs over the given faces and vertices: the vertex is not a
corner of the face and may collide with its first corner. -/
def ref_fv (faces vertices : List Nat) (F : MatrixXi) (pred : Nat → Nat → Bool) :
    List FaceVertexCandidate :=
  (faces.flatMap fun f => vertices.map fun v => (⟨f, v⟩ : FaceVertexCandidate)).filter fun p =>
    to_size_t (F.coeff p.face_index 0) != p.vertex_index
      && to_size_t (F.coeff p.face_index 1) != p.vertex_index
      && to_size_t (F.coeff p.face_index 2) != p.vertex_index
      && pred p.vertex_index (to_size_t (F.coeff p.face_index 0))

/-- The reference backend.  No entry point fails. -/
def ref_backend (S : Type) : Backend S RefGrid Unit where
  detect_collision_candidates_brute_force P E F c ev ee fv _ _ pred := .ok
    { ev_candidates := c.ev_candidates ++
        (if ev then ref_ev (List.range E.rows) (List.range P.num_vertices) E pred else [])
      ee_candidates := c.ee_candidates ++
        (if ee then ref_ee (List.range E.rows) E pred else [])
      fv_candidates := c.fv_candidates ++
        (if fv then ref_fv (List.range F.rows) (List.range P.num_vertices) F pred else []) }
  HashGrid := .ok ⟨[], [], []⟩
  resize g _ _ _ := .ok g
  addVertices g P _ := .ok { g with vertices := g.vertices ++ List.range P.num_vertices }
  addVerticesFromEdges g _ E _ := .ok { g with vertices := g.vertices ++ E.subscripts }
  addSelectVertices g _ codim_V _ := .ok { g with vertices := g.vertices ++ codim_V.subscripts }
  addEdges g _ E _ := .ok { g with edges := g.edges ++ List.range E.rows }
  addFaces g _ F _ := .ok { g with faces := g.faces ++ List.range F.rows }
  getVertexEdgePairs g E ev pred := .ok (g, ev ++ ref_ev g.edges g.vertices E pred)
  getEdgeEdgePairs g E ee pred := .ok (g, ee ++ ref_ee g.edges E pred)
  getFaceVertexPairs g F fv pred := .ok (g, fv ++ ref_fv g.faces g.vertices F pred)
  SpatialHash _ _ _ _ := .ok ()
  queryMeshForCandidates _ P E F c ev ee fv := .ok ((),
    { ev_candidates := c.ev_candidates ++
        (if ev then ref_ev (List.range E.rows) (List.range P.num_vertices) E
          (fun _ _ => true) else [])
      ee_candidates := c.ee_candidates ++
        (if ee then ref_ee (List.range E.rows) E (fun _ _ => true) else [])
      fv_candidates := c.fv_candidates ++
        (if fv then ref_fv (List.range F.rows) (List.range P.num_vertices) F
          (fun _ _ => true) else []) })

/-! ## Sample inputs -/

/-- Vertex configuration with the given shape; every coordinate is zero. -/
def sample_V (rows cols : Nat) : MatrixXd Int := ⟨rows, cols, fun _ _ => 0⟩

/-- The four boundary edges of a square on the vertices 0, 1, 2, 3. -/
def square_E : MatrixXi := DenseMatrix.ofRows 2 0 [[0, 1], [1, 2], [2, 3], [3, 0]]

/-- The two triangles of a square on the vertices 0, 1, 2, 3. -/
def square_F : MatrixXi := DenseMatrix.ofRows 3 0 [[0, 1, 2], [0, 2, 3]]

/-- No faces. -/
def no_F : MatrixXi := DenseMatrix.ofRows 3 0 []

/-- One edge joining the vertices 2 and 5. -/
def edge_2_5 : MatrixXi := DenseMatrix.ofRows 2 0 [[2, 5]]

/-- The eligibility predicate that admits every pair. -/
def always_collide : Nat → Nat → Bool := fun _ _ => true

/-! ## Properties of `build_ignore_vertices` -/

theorem to_size_t_of_nonneg {x : Int} (h0 : 0 ≤ x) (h : x < 2 ^ 64) :
    to_size_t x = x.toNat := by
  unfold to_size_t
  rw [Int.emod_eq_of_lt h0 h]

theorem mark_vertex_ok {tag : Failure} {n : Nat} (m : List Bool) {x : Int}
    (hx : to_size_t x < n) :
    ∃ m', mark_vertex tag n m x = .ok m' ∧ m'.length = m.length ∧
      ∀ v, included m' v ↔ included m v ∨ (v < m.length ∧ to_size_t x = v) := by
  refine ⟨m.set (to_size_t x) false, by simp [mark_vertex, hx], by simp, ?_⟩
  intro v
  simp only [included, List.getElem?_set]
  by_cases hv : to_size_t x = v
  · subst hv
    by_cases hl : to_size_t x < m.length
    · simp [hl]
    · simp [hl, List.getElem?_eq_none (Nat.le_of_not_lt hl)]
  · simp [hv]

theorem mark_vertex_error {tag : Failure} {n : Nat} (m : List Bool) {x : Int}
    (hx : ¬ to_size_t x < n) : mark_vertex tag n m x = .error tag := by
  simp [mark_vertex, hx]

/-- A fold of marking steps that all succeed marks exactly the union of what the
steps mark. -/
theorem foldlM_mark_ok {ι : Type} (l : List ι)
    (g : List Bool → ι → Except Failure (List Bool)) (P : ι → Nat → Prop)
    (hg : ∀ i ∈ l, ∀ m, ∃ m', g m i = .ok m' ∧ m'.length = m.length ∧
      ∀ v, included m' v ↔ included m v ∨ (v < m.length ∧ P i v)) :
    ∀ m, ∃ m', l.foldlM g m = .ok m' ∧ m'.length = m.length ∧
      ∀ v, included m' v ↔ included m v ∨ (v < m.length ∧ ∃ i ∈ l, P i v) := by
  induction l with
  | nil => intro m; exact ⟨m, rfl, rfl, by simp⟩
  | cons a l ih =>
    intro m
    obtain ⟨m1, h1, hlen1, hch1⟩ := hg a (List.mem_cons_self a l) m
    obtain ⟨m2, h2, hlen2, hch2⟩ :=
      ih (fun i hi => hg i (List.mem_cons_of_mem a hi)) m1
    refine ⟨m2, ?_, by rw [hlen2, hlen1], ?_⟩
    · rw [List.foldlM_cons, h1]; exact h2
    · intro v
      rw [hch2 v, hch1 v, hlen1]
      constructor
      · rintro ((h | ⟨hv, hP⟩) | ⟨hv, i, hi, hP⟩)
        · exact Or.inl h
        · exact Or.inr ⟨hv, a, List.mem_cons_self a l, hP⟩
        · exact Or.inr ⟨hv, i, List.mem_cons_of_mem a hi, hP⟩
      · rintro (h | ⟨hv, i, hi, hP⟩)
        · exact Or.inl (Or.inl h)
        · rcases List.mem_cons.mp hi with rfl | hi
          · exact Or.inl (Or.inr ⟨hv, hP⟩)
          · exact Or.inr ⟨hv, i, hi, hP⟩

/-- A fold of steps each of which succeeds or fails with `e`, one of which fails
whatever the mask, fails with `e`. -/
theorem foldlM_mark_error {ι : Type} (l : List ι)
    (g : List Bool → ι → Except Failure (List Bool)) (e : Failure)
    (hg : ∀ i ∈ l, ∀ m, (∃ m', g m i = .ok m') ∨ g m i = .error e)
    (hbad : ∃ i ∈ l, ∀ m, g m i = .error e) :
    ∀ m, l.foldlM g m = .error e := by
  induction l with
  | nil => obtain ⟨i, hi, _⟩ := hbad; cases hi
  | cons a l ih =>
    intro m
    rw [List.foldlM_cons]
    rcases hg a (List.mem_cons_self a l) m with ⟨m1, h1⟩ | h1
    · rw [h1]
      obtain ⟨i, hi, hbi⟩ := hbad
      rcases List.mem_cons.mp hi with rfl | hi
      · rw [hbi m] at h1; cases h1
      · exact ih (fun j hj => hg j (List.mem_cons_of_mem a hj)) ⟨i, hi, hbi⟩ m1
    · rw [h1]; rfl

/-- When every subscript passes its assertion, `build_ignore_vertices` on an
empty vector returns a mask of length `n` that includes exactly the
subscripts. -/
theorem build_ignore_vertices_ok (n : Nat) (codim_V : VectorXi) (E : MatrixXi)
    (hc : ∀ i, i < codim_V.size → to_size_t (codim_V.coeff i) < n)
    (hE : ∀ ei, ei < E.rows → ∀ ej, ej < E.cols → to_size_t (E.coeff ei ej) < n) :
    ∃ mask, build_ignore_vertices n codim_V E [] = .ok mask ∧ mask.length = n ∧
      ∀ v, included mask v ↔
        ((∃ i, i < codim_V.size ∧ to_size_t (codim_V.coeff i) = v) ∨
          ∃ ei, ei < E.rows ∧ ∃ ej, ej < E.cols ∧ to_size_t (E.coeff ei ej) = v) := by
  have h0len : (vector_resize [] n true).length = n := by simp [vector_resize]
  have h0 : ∀ v, ¬ included (vector_resize [] n true) v := by
    intro v
    simp [included, vector_resize, List.getElem?_replicate]
  obtain ⟨m1, h1, hlen1, hch1⟩ :=
    foldlM_mark_ok (List.range codim_V.size)
      (fun m i => mark_vertex .codim_index_assert n m (codim_V.coeff i))
      (fun i v => to_size_t (codim_V.coeff i) = v)
      (fun i hi m => mark_vertex_ok m (hc i (List.mem_range.mp hi)))
      (vector_resize [] n true)
  obtain ⟨m2, h2, hlen2, hch2⟩ :=
    foldlM_mark_ok (List.range E.cols)
      (fun m ej => (List.range E.rows).foldlM
        (fun m ei => mark_vertex .edge_index_assert n m (E.coeff ei ej)) m)
      (fun ej v => ∃ ei ∈ List.range E.rows, to_size_t (E.coeff ei ej) = v)
      (fun ej hej m =>
        foldlM_mark_ok (List.range E.rows)
          (fun m ei => mark_vertex .edge_index_assert n m (E.coeff ei ej))
          (fun ei v => to_size_t (E.coeff ei ej) = v)
          (fun ei hei m =>
            mark_vertex_ok m (hE ei (List.mem_range.mp hei) ej (List.mem_range.mp hej)))
          m)
      m1
  refine ⟨m2, ?_, by rw [hlen2, hlen1, h0len], ?_⟩
  · unfold build_ignore_vertices
    simp only [bind, Except.bind, h1]
    exact h2
  · intro v
    rw [hch2 v, hch1 v, hlen1, h0len]
    constructor
    · rintro ((h | ⟨_, i, hi, hP⟩) | ⟨_, ej, hej, ei, hei, hP⟩)
      · exact absurd h (h0 v)
      · exact Or.inl ⟨i, List.mem_range.mp hi, hP⟩
      · exact Or.inr ⟨ei, List.mem_range.mp hei, ej, List.mem_range.mp hej, hP⟩
    · rintro (⟨i, hi, hP⟩ | ⟨ei, hei, ej, hej, hP⟩)
      · exact Or.inl (Or.inr ⟨hP ▸ hc i hi, i, List.mem_range.mpr hi, hP⟩)
      · exact Or.inr ⟨hP ▸ hE ei hei ej hej, ej, List.mem_range.mpr hej, ei,
          List.mem_range.mpr hei, hP⟩

/-- When some subscript violates its assertion, `build_ignore_vertices` fails
at one of its two assertions. -/
theorem build_ignore_vertices_error (n : Nat) (codim_V : VectorXi) (E : MatrixXi)
    (m0 : List Bool)
    (hbad : (∃ i, i < codim_V.size ∧ ¬ to_size_t (codim_V.coeff i) < n) ∨
      ∃ ei, ei < E.rows ∧ ∃ ej, ej < E.cols ∧ ¬ to_size_t (E.coeff ei ej) < n) :
    build_ignore_vertices n codim_V E m0 = .error .codim_index_assert ∨
      build_ignore_vertices n codim_V E m0 = .error .edge_index_assert := by
  have step : ∀ (tag : Failure) (x : Int) (m : List Bool),
      (∃ m', mark_vertex tag n m x = .ok m') ∨ mark_vertex tag n m x = .error tag := by
    intro tag x m
    by_cases hx : to_size_t x < n
    · exact Or.inl ⟨_, (mark_vertex_ok m hx).choose_spec.1⟩
    · exact Or.inr (mark_vertex_error m hx)
  unfold build_ignore_vertices
  simp only [bind, Except.bind]
  by_cases hcb : ∃ i, i < codim_V.size ∧ ¬ to_size_t (codim_V.coeff i) < n
  · obtain ⟨i, hi, hx⟩ := hcb
    left
    rw [foldlM_mark_error (List.range codim_V.size)
      (fun m i => mark_vertex .codim_index_assert n m (codim_V.coeff i)) .codim_index_assert
      (fun j _ m => step _ _ m)
      ⟨i, List.mem_range.mpr hi, fun m => mark_vertex_error m hx⟩]
  · rcases hbad with hb | ⟨ei, hei, ej, hej, hx⟩
    · exact absurd hb hcb
    · cases hfold : (List.range codim_V.size).foldlM
        (fun m i => mark_vertex .codim_index_assert n m (codim_V.coeff i))
        (vector_resize m0 n true) with
      | error e =>
        exfalso
        have hall : ∀ i, i < codim_V.size → to_size_t (codim_V.coeff i) < n := by
          intro i hi
          by_contra hx
          exact hcb ⟨i, hi, hx⟩
        obtain ⟨m1, h1, _⟩ :=
          foldlM_mark_ok (List.range codim_V.size)
            (fun m i => mark_vertex .codim_index_assert n m (codim_V.coeff i))
            (fun i v => to_size_t (codim_V.coeff i) = v)
            (fun i hi m => mark_vertex_ok m (hall i (List.mem_range.mp hi)))
            (vector_resize m0 n true)
        rw [h1] at hfold
        cases hfold
      | ok m1 =>
        right
        simp only
        refine foldlM_mark_error (List.range E.cols) _ .edge_index_assert ?_ ?_ m1
        · intro ej' _ m
          by_cases hall : ∀ ei', ei' < E.rows → to_size_t (E.coeff ei' ej') < n
          · left
            obtain ⟨m', hm', _⟩ :=
              foldlM_mark_ok (List.range E.rows)
                (fun m ei => mark_vertex .edge_index_assert n m (E.coeff ei ej'))
                (fun ei v => to_size_t (E.coeff ei ej') = v)
                (fun ei hei m => mark_vertex_ok m (hall ei (List.mem_range.mp hei)))
                m
            exact ⟨m', hm'⟩
          · right
            push_neg at hall
            obtain ⟨ei', hei', hx'⟩ := hall
            exact foldlM_mark_error (List.range E.rows)
              (fun m ei => mark_vertex .edge_index_assert n m (E.coeff ei ej'))
              .edge_index_assert (fun j _ m => step _ _ m)
              ⟨ei', List.mem_range.mpr hei', fun m => mark_vertex_error m (by omega)⟩ m
        · exact ⟨ej, List.mem_range.mpr hej, fun m =>
            foldlM_mark_error (List.range E.rows)
              (fun m ei => mark_vertex .edge_index_assert n m (E.coeff ei ej))
              .edge_index_assert (fun j _ m => step _ _ m)
              ⟨ei, List.mem_range.mpr hei, fun m => mark_vertex_error m hx⟩ m⟩

/-- With in-range indices, the mask built on an empty vector has length `n` and
includes exactly the entries of `codim_V` and of `E`. -/
theorem build_ignore_vertices_in_range (n : Nat) (codim_V : VectorXi) (E : MatrixXi)
    (hn : n < 2 ^ 64) (hc : codim_V.in_range n) (hE : E.in_range n) :
    ∃ mask, build_ignore_vertices n codim_V E [] = .ok mask ∧ mask.length = n ∧
      ∀ v : Nat, mask[v]? = some false ↔ (codim_V.has_entry v ∨ E.has_entry v) := by
  have conv : ∀ x : Int, 0 ≤ x → x < n → to_size_t x = x.toNat := fun x h0 hx =>
    to_size_t_of_nonneg h0 (by have : (n : Int) < 2 ^ 64 := by exact_mod_cast hn
                               omega)
  obtain ⟨mask, hb, hlen, hch⟩ := build_ignore_vertices_ok n codim_V E
    (fun i hi => by
      obtain ⟨h0, hx⟩ := hc i hi
      rw [conv _ h0 hx]; omega)
    (fun ei hei ej hej => by
      obtain ⟨h0, hx⟩ := hE ei hei ej hej
      rw [conv _ h0 hx]; omega)
  refine ⟨mask, hb, hlen, fun v => ?_⟩
  have := hch v
  unfold included at this
  rw [this]
  constructor
  · rintro (⟨i, hi, hP⟩ | ⟨ei, hei, ej, hej, hP⟩)
    · obtain ⟨h0, hx⟩ := hc i hi
      rw [conv _ h0 hx] at hP
      exact Or.inl ⟨i, hi, by omega⟩
    · obtain ⟨h0, hx⟩ := hE ei hei ej hej
      rw [conv _ h0 hx] at hP
      exact Or.inr ⟨ei, hei, ej, hej, by omega⟩
  · rintro (⟨i, hi, hP⟩ | ⟨ei, hei, ej, hej, hP⟩)
    · obtain ⟨h0, hx⟩ := hc i hi
      exact Or.inl ⟨i, hi, by rw [conv _ h0 hx]; omega⟩
    · obtain ⟨h0, hx⟩ := hE ei hei ej hej
      exact Or.inr ⟨ei, hei, ej, hej, by rw [conv _ h0 hx]; omega⟩

/-- C2 (mask builder).  For a vertex count `n` (a `size_t`), a codimensional
index list and an edge matrix whose entries are all vertex indices below `n`,
`build_ignore_vertices` called on an empty mask returns a mask of length
exactly `n`, and for every `v < n` the entry `mask[v]` is `false` (included)
if and only if `v` is an entry of `codim_V` or an entry of `E`; it is `true`
otherwise.  Faces are not an argument of the function. -/
theorem build_ignore_vertices_mask (n : Nat) (codim_V : VectorXi) (E : MatrixXi)
    (hn : n < 2 ^ 64) (hc : codim_V.in_range n) (hE : E.in_range n) :
    ∃ mask, build_ignore_vertices n codim_V E [] = .ok mask ∧ mask.length = n ∧
      ∀ v : Nat, v < n →
        (mask[v]? = some false ↔ (codim_V.has_entry v ∨ E.has_entry v)) ∧
        (mask[v]? = some true ↔ ¬ (codim_V.has_entry v ∨ E.has_entry v)) := by
  obtain ⟨mask, hb, hlen, key⟩ := build_ignore_vertices_in_range n codim_V E hn hc hE
  refine ⟨mask, hb, hlen, fun v hv => ⟨key v, ?_⟩⟩
  rw [← key v]
  have hv' : v < mask.length := by omega
  rw [List.getElem?_eq_getElem hv']
  cases mask[v] <;> simp

/-- Witness for C2: nine vertices, one edge joining 2 and 5, codimensional
vertex 7.  The mask is `false` exactly at 2, 5 and 7. -/
theorem build_ignore_vertices_mask_witness :
    build_ignore_vertices 9 (VectorXi.ofList [7]) (DenseMatrix.ofRows 2 0 [[2, 5], [5, 2]]) []
        = .ok [true, true, false, true, true, false, true, false, true] ∧
      ∃ mask, build_ignore_vertices 9 (VectorXi.ofList [7])
          (DenseMatrix.ofRows 2 0 [[2, 5], [5, 2]]) [] = .ok mask ∧ mask.length = 9 ∧
        ∀ v : Nat, v < 9 →
          (mask[v]? = some false ↔
            ((VectorXi.ofList [7]).has_entry v ∨
              (DenseMatrix.ofRows 2 0 [[2, 5], [5, 2]]).has_entry v)) ∧
          (mask[v]? = some true ↔
            ¬ ((VectorXi.ofList [7]).has_entry v ∨
              (DenseMatrix.ofRows 2 0 [[2, 5], [5, 2]]).has_entry v)) :=
  ⟨by rfl, build_ignore_vertices_mask 9 (VectorXi.ofList [7])
    (DenseMatrix.ofRows 2 0 [[2, 5], [5, 2]]) (by norm_num) (by decide) (by decide)⟩

/-! ## The two dispatchers and their common `switch` -/

theorem construct_collision_candidates_eq {S G H : Type} (B : Backend S G H)
    (V : MatrixXd S) (codim_V : VectorXi) (include_all_vertices : Bool)
    (E F : MatrixXi) (candidates : Candidates) (inflation_radius : S)
    (method : BroadPhaseMethod) (can_collide : Nat → Nat → Bool) :
    construct_collision_candidates B V codim_V include_all_vertices E F candidates
        inflation_radius method can_collide =
      switch_method B (.fixed V) V.rows (to_int V.cols) codim_V include_all_vertices E F
        ⟨[], [], []⟩ inflation_radius method can_collide := by
  cases method <;> rfl

theorem construct_collision_candidates_continuous_eq {S G H : Type} (B : Backend S G H)
    (V0 V1 : MatrixXd S) (codim_V : VectorXi) (include_all_vertices : Bool)
    (E F : MatrixXi) (candidates : Candidates) (inflation_radius : S)
    (method : BroadPhaseMethod) (can_collide : Nat → Nat → Bool) :
    construct_collision_candidates_continuous B V0 V1 codim_V include_all_vertices E F
        candidates inflation_radius method can_collide =
      Traced.bind (Traced.assert ((V1.cols : Int) == to_int V0.cols) .cols_assert) fun _ =>
        switch_method B (.swept V0 V1) V0.rows (to_int V0.cols) codim_V
          include_all_vertices E F ⟨[], [], []⟩ inflation_radius method can_collide := by
  cases method <;> simp only [construct_collision_candidates_continuous, switch_method] <;> rfl

/-! ## Traced computations: basic facts -/

theorem Traced.bind_outcome_ok {S α β : Type} {x : Traced S α} {f : α → Traced S β} {b : β} :
    (x.bind f).outcome = .ok b ↔ ∃ a, x.outcome = .ok a ∧ (f a).outcome = .ok b := by
  unfold Traced.bind
  cases hx : x.outcome with
  | error e => simp
  | ok a => simp

theorem Traced.bind_calls_of_ok {S α β : Type} {x : Traced S α} {f : α → Traced S β} {a : α}
    (hx : x.outcome = .ok a) : (x.bind f).calls = x.calls ++ (f a).calls := by
  unfold Traced.bind
  rw [hx]

theorem Traced.bind_of_ok {S α β : Type} {x : Traced S α} {f : α → Traced S β} {a : α}
    (hx : x.outcome = .ok a) : x.bind f = ⟨x.calls ++ (f a).calls, (f a).outcome⟩ := by
  unfold Traced.bind
  rw [hx]

theorem Traced.mem_bind_calls {S α β : Type} {x : Traced S α} {f : α → Traced S β}
    {c : Call S} :
    c ∈ (x.bind f).calls ↔ c ∈ x.calls ∨ ∃ a, x.outcome = .ok a ∧ c ∈ (f a).calls := by
  unfold Traced.bind
  cases hx : x.outcome with
  | error e => simp
  | ok a => simp

theorem to_int_of_lt {n : Nat} (h : n < 2 ^ 31) : to_int n = n := by
  unfold to_int
  have h' : (n : Int) < 2 ^ 31 := by exact_mod_cast h
  omega

/-! ## The candidate set is cleared first -/

theorem Traced.all_calls_bind {S α β : Type} {p : Call S → Prop} {x : Traced S α}
    {f : α → Traced S β} (hx : ∀ c ∈ x.calls, p c) (hf : ∀ a, ∀ c ∈ (f a).calls, p c) :
    ∀ c ∈ (x.bind f).calls, p c := by
  intro c hc
  rcases Traced.mem_bind_calls.mp hc with h | ⟨a, _, h⟩
  · exact hx c h
  · exact hf a c h

theorem Traced.all_calls_invoke {S α : Type} {p : Call S → Prop} {c0 : Call S}
    {r : Except Failure α} (h : p c0) : ∀ c ∈ (Traced.invoke c0 r).calls, p c := by
  intro c hc
  simp only [Traced.invoke, List.mem_singleton] at hc
  exact hc ▸ h

theorem Traced.all_calls_nil {S α : Type} {p : Call S → Prop} {r : Except Failure α} :
    ∀ c ∈ (Traced.mk (S := S) [] r).calls, p c := by
  intro c hc
  cases hc

theorem switch_method_receives_empty {S G H : Type} (B : Backend S G H) (P : Vertices S)
    (num_vertices : Nat) (dim : Int) (codim_V : VectorXi) (include_all_vertices : Bool)
    (E F : MatrixXi) (inflation_radius : S) (method : BroadPhaseMethod)
    (can_collide : Nat → Nat → Bool) :
    ∀ call ∈ (switch_method B P num_vertices dim codim_V include_all_vertices E F
      ⟨[], [], []⟩ inflation_radius method can_collide).calls, call.receives_empty := by
  cases method with
  | BRUTE_FORCE =>
    exact Traced.all_calls_bind Traced.all_calls_nil fun _ => Traced.all_calls_invoke rfl
  | HASH_GRID =>
    unfold switch_method
    refine Traced.all_calls_bind (Traced.all_calls_invoke trivial) fun _ => ?_
    refine Traced.all_calls_bind (Traced.all_calls_invoke trivial) fun _ => ?_
    refine Traced.all_calls_bind ?_ fun _ => ?_
    · split
      · exact Traced.all_calls_invoke trivial
      · exact Traced.all_calls_bind (Traced.all_calls_invoke trivial) fun _ =>
          Traced.all_calls_invoke trivial
    refine Traced.all_calls_bind (Traced.all_calls_invoke trivial) fun _ => ?_
    refine Traced.all_calls_bind ?_ fun _ => ?_
    · split
      · exact Traced.all_calls_invoke trivial
      · exact Traced.all_calls_nil
    split
    · exact Traced.all_calls_bind (Traced.all_calls_invoke rfl) fun _ => Traced.all_calls_nil
    · exact Traced.all_calls_bind (Traced.all_calls_invoke rfl) fun _ =>
        Traced.all_calls_bind (Traced.all_calls_invoke rfl) fun _ => Traced.all_calls_nil
  | SPATIAL_HASH =>
    exact Traced.all_calls_bind Traced.all_calls_nil fun _ =>
      Traced.all_calls_bind (Traced.all_calls_invoke trivial) fun _ =>
        Traced.all_calls_bind (Traced.all_calls_invoke rfl) fun _ => Traced.all_calls_nil

/-- C9 (output is cleared first).  In the static and in the continuous
dispatcher, for every backend, input and method: the result of the call (the
backend invocations and the outcome) is the same for any two prior contents
`c1`, `c2` of the caller's candidate set, and every candidate sequence handed
to a backend entry point is empty. -/
theorem candidates_cleared_first {S G H : Type} (B : Backend S G H)
    (V V0 V1 : MatrixXd S) (codim_V : VectorXi) (include_all_vertices : Bool)
    (E F : MatrixXi) (inflation_radius : S) (method : BroadPhaseMethod)
    (can_collide : Nat → Nat → Bool) (c1 c2 : Candidates) :
    (construct_collision_candidates B V codim_V include_all_vertices E F c1
        inflation_radius method can_collide =
      construct_collision_candidates B V codim_V include_all_vertices E F c2
        inflation_radius method can_collide) ∧
    (∀ call ∈ (construct_collision_candidates B V codim_V include_all_vertices E F c1
        inflation_radius method can_collide).calls, call.receives_empty) ∧
    (construct_collision_candidates_continuous B V0 V1 codim_V include_all_vertices E F c1
        inflation_radius method can_collide =
      construct_collision_candidates_continuous B V0 V1 codim_V include_all_vertices E F c2
        inflation_radius method can_collide) ∧
    (∀ call ∈ (construct_collision_candidates_continuous B V0 V1 codim_V
        include_all_vertices E F c1 inflation_radius method can_collide).calls,
      call.receives_empty) := by
  refine ⟨?_, ?_, ?_, ?_⟩
  · rw [construct_collision_candidates_eq, construct_collision_candidates_eq]
  · intro call hcall
    rw [construct_collision_candidates_eq] at hcall
    exact switch_method_receives_empty _ _ _ _ _ _ _ _ _ _ _ call hcall
  · rw [construct_collision_candidates_continuous_eq,
      construct_collision_candidates_continuous_eq]
  · intro call hcall
    rw [construct_collision_candidates_continuous_eq, Traced.mem_bind_calls] at hcall
    rcases hcall with hcall | ⟨_, _, hcall⟩
    · simp [Traced.assert] at hcall
    · exact switch_method_receives_empty _ _ _ _ _ _ _ _ _ _ _ call hcall

/-! ## Dimension gating -/

theorem switch_method_gating {S G H : Type} (B : Backend S G H) (hB : B.respects_flags)
    (P : Vertices S) (num_vertices : Nat) (dim : Int) (codim_V : VectorXi)
    (include_all_vertices : Bool) (E F : MatrixXi) (inflation_radius : S)
    (method : BroadPhaseMethod) (can_collide : Nat → Nat → Bool) (c : Candidates)
    (h : (switch_method B P num_vertices dim codim_V include_all_vertices E F
      ⟨[], [], []⟩ inflation_radius method can_collide).outcome = .ok c) :
    (dim = 2 → c.ee_candidates = [] ∧ c.fv_candidates = []) ∧
      (dim = 3 → c.ev_candidates = []) := by
  have two_three : dim = 2 → (dim == 3) = false := by
    intro h2; subst h2; decide
  have three_two : dim = 3 → (dim == 2) = false := by
    intro h3; subst h3; decide
  cases method with
  | BRUTE_FORCE =>
    obtain ⟨_, _, h⟩ := Traced.bind_outcome_ok.mp h
    obtain ⟨hev, hee, hfv⟩ := hB.1 _ _ _ _ _ _ _ _ _ _ _ h
    exact ⟨fun h2 => ⟨hee (two_three h2), hfv (two_three h2)⟩, fun h3 => hev (three_two h3)⟩
  | HASH_GRID =>
    unfold switch_method at h
    obtain ⟨_, _, h⟩ := Traced.bind_outcome_ok.mp h
    obtain ⟨_, _, h⟩ := Traced.bind_outcome_ok.mp h
    obtain ⟨_, _, h⟩ := Traced.bind_outcome_ok.mp h
    obtain ⟨_, _, h⟩ := Traced.bind_outcome_ok.mp h
    obtain ⟨_, _, h⟩ := Traced.bind_outcome_ok.mp h
    by_cases h2 : (dim == 2) = true
    · rw [if_pos h2] at h
      obtain ⟨_, _, h⟩ := Traced.bind_outcome_ok.mp h
      cases h
      refine ⟨fun _ => ⟨rfl, rfl⟩, fun h3 => ?_⟩
      rw [three_two h3] at h2
      cases h2
    · rw [if_neg h2] at h
      obtain ⟨_, _, h⟩ := Traced.bind_outcome_ok.mp h
      obtain ⟨_, _, h⟩ := Traced.bind_outcome_ok.mp h
      cases h
      refine ⟨fun h2' => ?_, fun _ => rfl⟩
      subst h2'
      exact absurd (by decide) h2
  | SPATIAL_HASH =>
    obtain ⟨_, _, h⟩ := Traced.bind_outcome_ok.mp h
    obtain ⟨_, _, h⟩ := Traced.bind_outcome_ok.mp h
    obtain ⟨r, hr, h⟩ := Traced.bind_outcome_ok.mp h
    cases h
    obtain ⟨hev, hee, hfv⟩ := hB.2 _ _ _ _ _ _ _ _ _ hr
    exact ⟨fun h2 => ⟨hee (two_three h2), hfv (two_three h2)⟩, fun h3 => hev (three_two h3)⟩

theorem ref_backend_respects_flags (S : Type) : (ref_backend S).respects_flags := by
  constructor
  · intro P E F c ev ee fv aabb r pred c' h
    cases h
    refine ⟨?_, ?_, ?_⟩ <;> intro hf <;> subst hf <;> simp
  · intro sh P E F c ev ee fv r h
    cases h
    refine ⟨?_, ?_, ?_⟩ <;> intro hf <;> subst hf <;> simp

/-- C1 (dimension gating).  For every backend that leaves a category untouched
when its flag is off, every method, geometry and `can_collide`: whenever the
static dispatcher returns a candidate set, its edge-edge and face-vertex
sequences are empty if the vertex configuration has 2 columns and its
vertex-edge sequence is empty if it has 3 columns; the same holds for the
continuous dispatcher with the columns of `V0`. -/
theorem dimension_gating {S G H : Type} (B : Backend S G H) (hB : B.respects_flags)
    (V V0 V1 : MatrixXd S) (codim_V : VectorXi) (include_all_vertices : Bool)
    (E F : MatrixXi) (candidates : Candidates) (inflation_radius : S)
    (method : BroadPhaseMethod) (can_collide : Nat → Nat → Bool) :
    (∀ c, (construct_collision_candidates B V codim_V include_all_vertices E F candidates
        inflation_radius method can_collide).outcome = .ok c →
      (V.cols = 2 → c.ee_candidates = [] ∧ c.fv_candidates = []) ∧
        (V.cols = 3 → c.ev_candidates = [])) ∧
    (∀ c, (construct_collision_candidates_continuous B V0 V1 codim_V include_all_vertices
        E F candidates inflation_radius method can_collide).outcome = .ok c →
      (V0.cols = 2 → c.ee_candidates = [] ∧ c.fv_candidates = []) ∧
        (V0.cols = 3 → c.ev_candidates = [])) := by
  constructor
  · intro c h
    rw [construct_collision_candidates_eq] at h
    have := switch_method_gating B hB _ _ _ _ _ _ _ _ _ _ c h
    exact ⟨fun h2 => this.1 (by rw [h2]; rfl), fun h3 => this.2 (by rw [h3]; rfl)⟩
  · intro c h
    rw [construct_collision_candidates_continuous_eq] at h
    obtain ⟨_, _, h⟩ := Traced.bind_outcome_ok.mp h
    have := switch_method_gating B hB _ _ _ _ _ _ _ _ _ _ c h
    exact ⟨fun h2 => this.1 (by rw [h2]; rfl), fun h3 => this.2 (by rw [h3]; rfl)⟩

/-- Witness for C1: the square mesh with the reference backend.  In 2D (static,
brute force, a caller's candidate set with stale entries) only vertex-edge
candidates are returned; in 3D (continuous, hash grid) only edge-edge and
face-vertex candidates are. -/
theorem dimension_gating_witness :
    (ref_backend Int).respects_flags ∧
    (construct_collision_candidates (ref_backend Int) (sample_V 4 2) VectorXi.empty true
        square_E no_F ⟨[⟨9, 9⟩], [⟨9, 9⟩], [⟨9, 9⟩]⟩ 0 .BRUTE_FORCE always_collide).outcome
      = .ok ⟨[⟨0, 2⟩, ⟨0, 3⟩, ⟨1, 0⟩, ⟨1, 3⟩, ⟨2, 0⟩, ⟨2, 1⟩, ⟨3, 1⟩, ⟨3, 2⟩], [], []⟩ ∧
    (∀ c, (construct_collision_candidates (ref_backend Int) (sample_V 4 2) VectorXi.empty
        true square_E no_F ⟨[⟨9, 9⟩], [⟨9, 9⟩], [⟨9, 9⟩]⟩ 0 .BRUTE_FORCE
        always_collide).outcome = .ok c →
      c.ee_candidates = [] ∧ c.fv_candidates = []) ∧
    (construct_collision_candidates_continuous (ref_backend Int) (sample_V 4 3)
        (sample_V 4 3) VectorXi.empty true square_E square_F
        ⟨[⟨9, 9⟩], [⟨9, 9⟩], [⟨9, 9⟩]⟩ 0 .HASH_GRID always_collide).outcome
      = .ok ⟨[], [⟨0, 1⟩, ⟨0, 2⟩, ⟨0, 3⟩, ⟨1, 2⟩, ⟨1, 3⟩, ⟨2, 3⟩], [⟨0, 3⟩, ⟨1, 1⟩]⟩ ∧
    (∀ c, (construct_collision_candidates_continuous (ref_backend Int) (sample_V 4 3)
        (sample_V 4 3) VectorXi.empty true square_E square_F
        ⟨[⟨9, 9⟩], [⟨9, 9⟩], [⟨9, 9⟩]⟩ 0 .HASH_GRID always_collide).outcome = .ok c →
      c.ev_candidates = []) :=
  ⟨ref_backend_respects_flags Int, by rfl,
    fun c h => ((dimension_gating (ref_backend Int) (ref_backend_respects_flags Int)
      (sample_V 4 2) (sample_V 4 3) (sample_V 4 3) VectorXi.empty true square_E no_F
      ⟨[⟨9, 9⟩], [⟨9, 9⟩], [⟨9, 9⟩]⟩ 0 .BRUTE_FORCE always_collide).1 c h).1 rfl,
    by rfl,
    fun c h => ((dimension_gating (ref_backend Int) (ref_backend_respects_flags Int)
      (sample_V 4 2) (sample_V 4 3) (sample_V 4 3) VectorXi.empty true square_E square_F
      ⟨[⟨9, 9⟩], [⟨9, 9⟩], [⟨9, 9⟩]⟩ 0 .HASH_GRID always_collide).2 c h).2 rfl⟩

/-! ## The brute-force effective predicate -/

theorem adjusted_can_collide_nil (can_collide : Nat → Nat → Bool) (vi vj : Nat) :
    adjusted_can_collide [] can_collide vi vj = can_collide vi vj := by
  simp [adjusted_can_collide]

theorem adjusted_can_collide_mask (mask : List Bool) (can_collide : Nat → Nat → Bool)
    (vi vj : Nat) (hi : vi < mask.length) (hj : vj < mask.length) :
    adjusted_can_collide mask can_collide vi vj = true ↔
      mask[vi]? = some false ∧ mask[vj]? = some false ∧ can_collide vi vj = true := by
  have hne : mask.isEmpty = false := by
    cases mask with
    | nil => simp at hi
    | cons a l => rfl
  simp only [adjusted_can_collide, hne, Bool.false_or, Bool.and_eq_true, Bool.not_eq_true',
    List.getD_eq_getElem?_getD, List.getElem?_eq_getElem hi, List.getElem?_eq_getElem hj,
    Option.getD_some, Option.some.injEq, and_assoc]

theorem switch_method_brute_force_all {S G H : Type} (B : Backend S G H) (P : Vertices S)
    (num_vertices : Nat) (dim : Int) (codim_V : VectorXi) (E F : MatrixXi)
    (candidates : Candidates) (inflation_radius : S) (can_collide : Nat → Nat → Bool) :
    switch_method B P num_vertices dim codim_V true E F candidates inflation_radius
        .BRUTE_FORCE can_collide =
      ⟨[.detect_collision_candidates_brute_force P E F candidates (dim == 2) (dim == 3)
          (dim == 3) true inflation_radius (adjusted_can_collide [] can_collide)],
        B.detect_collision_candidates_brute_force P E F candidates (dim == 2) (dim == 3)
          (dim == 3) true inflation_radius (adjusted_can_collide [] can_collide)⟩ := rfl

theorem switch_method_brute_force_mask {S G H : Type} (B : Backend S G H) (P : Vertices S)
    (num_vertices : Nat) (dim : Int) (codim_V : VectorXi) (E F : MatrixXi)
    (candidates : Candidates) (inflation_radius : S) (can_collide : Nat → Nat → Bool)
    (mask : List Bool) (hmask : build_ignore_vertices num_vertices codim_V E [] = .ok mask) :
    switch_method B P num_vertices dim codim_V false E F candidates inflation_radius
        .BRUTE_FORCE can_collide =
      ⟨[.detect_collision_candidates_brute_force P E F candidates (dim == 2) (dim == 3)
          (dim == 3) true inflation_radius (adjusted_can_collide mask can_collide)],
        B.detect_collision_candidates_brute_force P E F candidates (dim == 2) (dim == 3)
          (dim == 3) true inflation_radius (adjusted_can_collide mask can_collide)⟩ := by
  simp only [switch_method, Bool.not_false, if_true, hmask]
  rfl

theorem switch_method_brute_force_error {S G H : Type} (B : Backend S G H) (P : Vertices S)
    (num_vertices : Nat) (dim : Int) (codim_V : VectorXi) (E F : MatrixXi)
    (candidates : Candidates) (inflation_radius : S) (can_collide : Nat → Nat → Bool)
    (e : Failure) (hmask : build_ignore_vertices num_vertices codim_V E [] = .error e) :
    switch_method B P num_vertices dim codim_V false E F candidates inflation_radius
        .BRUTE_FORCE can_collide = ⟨[], .error e⟩ := by
  simp only [switch_method, Bool.not_false, if_true, hmask]
  rfl

theorem cols_assert_pass {S : Type} {V0 V1 : MatrixXd S} (hcols : V1.cols = V0.cols)
    (hint : V0.cols < 2 ^ 31) :
    (Traced.assert (S := S) ((V1.cols : Int) == to_int V0.cols) .cols_assert)
      = ⟨[], .ok ()⟩ := by
  simp [Traced.assert, to_int_of_lt hint, hcols]

theorem continuous_eq_switch {S G H : Type} (B : Backend S G H)
    (V0 V1 : MatrixXd S) (hcols : V1.cols = V0.cols) (hint : V0.cols < 2 ^ 31)
    (codim_V : VectorXi) (include_all_vertices : Bool)
    (E F : MatrixXi) (candidates : Candidates) (inflation_radius : S)
    (method : BroadPhaseMethod) (can_collide : Nat → Nat → Bool) :
    construct_collision_candidates_continuous B V0 V1 codim_V include_all_vertices E F
        candidates inflation_radius method can_collide =
      switch_method B (.swept V0 V1) V0.rows (to_int V0.cols) codim_V
        include_all_vertices E F ⟨[], [], []⟩ inflation_radius method can_collide := by
  rw [construct_collision_candidates_continuous_eq, cols_assert_pass hcols hint]
  simp [Traced.bind]

/-- C3 (brute-force effective predicate).  For method `BRUTE_FORCE`, a geometry
whose edge and codimensional indices are in range, and `V1` of the same width
as `V0`: the static dispatcher on `V0` and the continuous one on `V0, V1` make
exactly one backend invocation, of the brute-force detection, and the
predicate `pred` handed to it satisfies: with `include_all_vertices = true`,
`pred vi vj = can_collide vi vj` for all `vi, vj`; with
`include_all_vertices = false`, for all `vi, vj` below the vertex count,
`pred vi vj` is true if and only if `vi` and `vj` are both an edge endpoint or
listed in `codim_V` and `can_collide vi vj` is true. -/
theorem brute_force_effective_predicate {S G H : Type} (B : Backend S G H)
    (V0 V1 : MatrixXd S) (codim_V : VectorXi) (include_all_vertices : Bool)
    (E F : MatrixXi) (candidates : Candidates) (inflation_radius : S)
    (can_collide : Nat → Nat → Bool)
    (hrows : V0.rows < 2 ^ 64) (hint : V0.cols < 2 ^ 31) (hcols : V1.cols = V0.cols)
    (hc : codim_V.in_range V0.rows) (hE : E.in_range V0.rows) :
    ∃ pred : Nat → Nat → Bool,
      (construct_collision_candidates B V0 codim_V include_all_vertices E F candidates
          inflation_radius .BRUTE_FORCE can_collide).calls =
        [.detect_collision_candidates_brute_force (.fixed V0) E F ⟨[], [], []⟩
          (to_int V0.cols == 2) (to_int V0.cols == 3) (to_int V0.cols == 3) true
          inflation_radius pred] ∧
      (construct_collision_candidates_continuous B V0 V1 codim_V include_all_vertices E F
          candidates inflation_radius .BRUTE_FORCE can_collide).calls =
        [.detect_collision_candidates_brute_force (.swept V0 V1) E F ⟨[], [], []⟩
          (to_int V0.cols == 2) (to_int V0.cols == 3) (to_int V0.cols == 3) true
          inflation_radius pred] ∧
      (include_all_vertices = true → ∀ vi vj, pred vi vj = can_collide vi vj) ∧
      (include_all_vertices = false → ∀ vi vj, vi < V0.rows → vj < V0.rows →
        (pred vi vj = true ↔
          eligible codim_V E vi ∧ eligible codim_V E vj ∧ can_collide vi vj = true)) := by
  rw [construct_collision_candidates_eq, continuous_eq_switch B V0 V1 hcols hint]
  cases include_all_vertices with
  | true =>
    refine ⟨adjusted_can_collide [] can_collide, ?_, ?_, ?_, ?_⟩
    · rw [switch_method_brute_force_all]
    · rw [switch_method_brute_force_all]
    · intro _ vi vj
      exact adjusted_can_collide_nil can_collide vi vj
    · intro h; cases h
  | false =>
    obtain ⟨mask, hb, hlen, hch⟩ := build_ignore_vertices_in_range V0.rows codim_V E hrows hc hE
    refine ⟨adjusted_can_collide mask can_collide, ?_, ?_, ?_, ?_⟩
    · rw [switch_method_brute_force_mask B _ _ _ _ _ _ _ _ _ mask hb]
    · rw [switch_method_brute_force_mask B _ _ _ _ _ _ _ _ _ mask hb]
    · intro h; cases h
    · intro _ vi vj hi hj
      rw [adjusted_can_collide_mask mask can_collide vi vj (by omega) (by omega),
        hch vi, hch vj]

/-- Witness for C3: nine vertices, one edge joining 2 and 5, codimensional
vertex 7, `include_all_vertices = false`. -/
theorem brute_force_effective_predicate_witness :
    ∃ pred : Nat → Nat → Bool,
      (construct_collision_candidates (ref_backend Int) (sample_V 9 2) (VectorXi.ofList [7])
          false edge_2_5 no_F ⟨[], [], []⟩ 0 .BRUTE_FORCE always_collide).calls =
        [.detect_collision_candidates_brute_force (.fixed (sample_V 9 2)) edge_2_5 no_F
          ⟨[], [], []⟩ (to_int (sample_V 9 2).cols == 2) (to_int (sample_V 9 2).cols == 3)
          (to_int (sample_V 9 2).cols == 3) true 0 pred] ∧
      (construct_collision_candidates_continuous (ref_backend Int) (sample_V 9 2)
          (sample_V 9 2) (VectorXi.ofList [7]) false edge_2_5 no_F ⟨[], [], []⟩ 0
          .BRUTE_FORCE always_collide).calls =
        [.detect_collision_candidates_brute_force (.swept (sample_V 9 2) (sample_V 9 2))
          edge_2_5 no_F ⟨[], [], []⟩ (to_int (sample_V 9 2).cols == 2)
          (to_int (sample_V 9 2).cols == 3) (to_int (sample_V 9 2).cols == 3) true 0 pred] ∧
      (false = true → ∀ vi vj, pred vi vj = always_collide vi vj) ∧
      (false = false → ∀ vi vj, vi < (sample_V 9 2).rows → vj < (sample_V 9 2).rows →
        (pred vi vj = true ↔
          eligible (VectorXi.ofList [7]) edge_2_5 vi ∧
            eligible (VectorXi.ofList [7]) edge_2_5 vj ∧ always_collide vi vj = true)) :=
  brute_force_effective_predicate (ref_backend Int) (sample_V 9 2) (sample_V 9 2)
    (VectorXi.ofList [7]) false edge_2_5 no_F ⟨[], [], []⟩ 0 always_collide
    (by decide) (by decide) rfl (by decide) (by decide)

/-! ## The Spatial-Hash limitation -/

/-- C5 (Spatial-Hash limitation).  With method `SPATIAL_HASH` and
`include_all_vertices = false`, for every backend, geometry, radius and
`can_collide`: the static dispatcher, and the static overload that takes
`codim_V` without the flag, invoke no backend entry point and fail at
`assert(include_all_vertices)`; the continuous dispatcher and its `codim_V`
overload invoke no backend entry point and fail, at
`assert(include_all_vertices)` when `V1` has the width stored in `dim` and at
the earlier `assert(V1.cols() == dim)` otherwise. -/
theorem spatial_hash_requires_all_vertices {S G H : Type} (B : Backend S G H)
    (V V0 V1 : MatrixXd S) (codim_V : VectorXi) (E F : MatrixXi) (candidates : Candidates)
    (inflation_radius : S) (can_collide : Nat → Nat → Bool) :
    construct_collision_candidates B V codim_V false E F candidates inflation_radius
        .SPATIAL_HASH can_collide = ⟨[], .error .include_all_vertices_assert⟩ ∧
    construct_collision_candidates_codim B V codim_V E F candidates inflation_radius
        .SPATIAL_HASH can_collide = ⟨[], .error .include_all_vertices_assert⟩ ∧
    construct_collision_candidates_continuous B V0 V1 codim_V false E F candidates
        inflation_radius .SPATIAL_HASH can_collide =
      ⟨[], .error (if (V1.cols : Int) == to_int V0.cols then .include_all_vertices_assert
        else .cols_assert)⟩ ∧
    construct_collision_candidates_continuous_codim B V0 V1 codim_V E F candidates
        inflation_radius .SPATIAL_HASH can_collide =
      ⟨[], .error (if (V1.cols : Int) == to_int V0.cols then .include_all_vertices_assert
        else .cols_assert)⟩ := by
  have hcont : construct_collision_candidates_continuous B V0 V1 codim_V false E F
      candidates inflation_radius .SPATIAL_HASH can_collide =
      ⟨[], .error (if (V1.cols : Int) == to_int V0.cols then .include_all_vertices_assert
        else .cols_assert)⟩ := by
    rw [construct_collision_candidates_continuous_eq]
    by_cases hc : ((V1.cols : Int) == to_int V0.cols) = true
    · rw [if_pos hc]
      simp only [Traced.assert, hc, if_true]
      rfl
    · rw [if_neg hc]
      simp only [Traced.assert, hc, if_false]
      rfl
  exact ⟨rfl, rfl, hcont, hcont⟩

/-! ## Index validation -/

/-- Counterexample to C6: two vertices and one edge `(0, 2)`, whose second
endpoint equals the vertex count.  With `BRUTE_FORCE` and
`include_all_vertices = true`, with `HASH_GRID` (either flag) and with
`SPATIAL_HASH` the dispatcher raises no failure and invokes the backend; and
with `BRUTE_FORCE` and `include_all_vertices = false` a face `(0, 1, 2)` with
an out-of-range corner is not rejected either. -/
theorem index_validation_counterexample :
    (construct_collision_candidates (ref_backend Int) (sample_V 2 2) VectorXi.empty true
        (DenseMatrix.ofRows 2 0 [[0, 2]]) no_F ⟨[], [], []⟩ 0 .BRUTE_FORCE always_collide
      = ⟨[.detect_collision_candidates_brute_force (.fixed (sample_V 2 2))
            (DenseMatrix.ofRows 2 0 [[0, 2]]) no_F ⟨[], [], []⟩ true false false true 0
            (adjusted_can_collide [] always_collide)],
          .ok ⟨[⟨0, 1⟩], [], []⟩⟩) ∧
    ((construct_collision_candidates (ref_backend Int) (sample_V 2 2) VectorXi.empty false
        (DenseMatrix.ofRows 2 0 [[0, 2]]) no_F ⟨[], [], []⟩ 0 .HASH_GRID
        always_collide).calls.length = 6 ∧
      (construct_collision_candidates (ref_backend Int) (sample_V 2 2) VectorXi.empty false
        (DenseMatrix.ofRows 2 0 [[0, 2]]) no_F ⟨[], [], []⟩ 0 .HASH_GRID
        always_collide).outcome = .ok ⟨[], [], []⟩) ∧
    ((construct_collision_candidates (ref_backend Int) (sample_V 2 2) VectorXi.empty true
        (DenseMatrix.ofRows 2 0 [[0, 2]]) no_F ⟨[], [], []⟩ 0 .SPATIAL_HASH
        always_collide).calls.length = 2 ∧
      (construct_collision_candidates (ref_backend Int) (sample_V 2 2) VectorXi.empty true
        (DenseMatrix.ofRows 2 0 [[0, 2]]) no_F ⟨[], [], []⟩ 0 .SPATIAL_HASH
        always_collide).outcome = .ok ⟨[⟨0, 1⟩], [], []⟩) ∧
    ((construct_collision_candidates (ref_backend Int) (sample_V 2 3) VectorXi.empty false
        (DenseMatrix.ofRows 2 0 [[0, 1]]) (DenseMatrix.ofRows 3 0 [[0, 1, 2]]) ⟨[], [], []⟩ 0
        .BRUTE_FORCE always_collide).calls.length = 1 ∧
      (construct_collision_candidates (ref_backend Int) (sample_V 2 3) VectorXi.empty false
        (DenseMatrix.ofRows 2 0 [[0, 1]]) (DenseMatrix.ofRows 3 0 [[0, 1, 2]]) ⟨[], [], []⟩ 0
        .BRUTE_FORCE always_collide).outcome = .ok ⟨[], [], []⟩) :=
  ⟨by rfl, ⟨by rfl, by rfl⟩, ⟨by rfl, by rfl⟩, ⟨by rfl, by rfl⟩⟩

/-- C6, amended (index validation).  For method `BRUTE_FORCE` with
`include_all_vertices = false`, a call in which some entry of `codim_V` or of
the edge matrix `E` is an `int` greater than or equal to the vertex count
invokes no backend entry point and fails: in the static dispatcher at one of
the two index assertions of `build_ignore_vertices`; in the continuous
dispatcher at one of the same two assertions whenever `V1` has the width
stored in `dim` (in particular whenever `V1` and `V0` have the same number of
columns and that number fits `int`), and at the earlier
`assert(V1.cols() == dim)` otherwise. -/
theorem index_validation_brute_force {S G H : Type} (B : Backend S G H)
    (V0 V1 : MatrixXd S) (codim_V : VectorXi) (E F : MatrixXi) (candidates : Candidates)
    (inflation_radius : S) (can_collide : Nat → Nat → Bool)
    (hbad : (∃ i, i < codim_V.size ∧
        (V0.rows : Int) ≤ codim_V.coeff i ∧ codim_V.coeff i < 2 ^ 31) ∨
      ∃ ei, ei < E.rows ∧ ∃ ej, ej < E.cols ∧
        (V0.rows : Int) ≤ E.coeff ei ej ∧ E.coeff ei ej < 2 ^ 31) :
    (construct_collision_candidates B V0 codim_V false E F candidates inflation_radius
        .BRUTE_FORCE can_collide = ⟨[], .error .codim_index_assert⟩ ∨
      construct_collision_candidates B V0 codim_V false E F candidates inflation_radius
        .BRUTE_FORCE can_collide = ⟨[], .error .edge_index_assert⟩) ∧
    ((V1.cols : Int) = to_int V0.cols →
      (construct_collision_candidates_continuous B V0 V1 codim_V false E F candidates
          inflation_radius .BRUTE_FORCE can_collide = ⟨[], .error .codim_index_assert⟩ ∨
        construct_collision_candidates_continuous B V0 V1 codim_V false E F candidates
          inflation_radius .BRUTE_FORCE can_collide = ⟨[], .error .edge_index_assert⟩)) ∧
    ((V1.cols : Int) ≠ to_int V0.cols →
      construct_collision_candidates_continuous B V0 V1 codim_V false E F candidates
        inflation_radius .BRUTE_FORCE can_collide = ⟨[], .error .cols_assert⟩) ∧
    (V1.cols = V0.cols → V0.cols < 2 ^ 31 →
      (construct_collision_candidates_continuous B V0 V1 codim_V false E F candidates
          inflation_radius .BRUTE_FORCE can_collide = ⟨[], .error .codim_index_assert⟩ ∨
        construct_collision_candidates_continuous B V0 V1 codim_V false E F candidates
          inflation_radius .BRUTE_FORCE can_collide = ⟨[], .error .edge_index_assert⟩)) := by
  have big : ∀ x : Int, (V0.rows : Int) ≤ x → x < 2 ^ 31 → ¬ to_size_t x < V0.rows := by
    intro x hx hlt
    rw [to_size_t_of_nonneg (by omega) (by omega)]
    omega
  have hb := build_ignore_vertices_error V0.rows codim_V E [] (by
    rcases hbad with ⟨i, hi, hx, hlt⟩ | ⟨ei, hei, ej, hej, hx, hlt⟩
    · exact Or.inl ⟨i, hi, big _ hx hlt⟩
    · exact Or.inr ⟨ei, hei, ej, hej, big _ hx hlt⟩)
  have hsw : ∀ P : Vertices S,
      switch_method B P V0.rows (to_int V0.cols) codim_V false E F ⟨[], [], []⟩
          inflation_radius .BRUTE_FORCE can_collide = ⟨[], .error .codim_index_assert⟩ ∨
        switch_method B P V0.rows (to_int V0.cols) codim_V false E F ⟨[], [], []⟩
          inflation_radius .BRUTE_FORCE can_collide = ⟨[], .error .edge_index_assert⟩ := by
    intro P
    rcases hb with hb | hb
    · exact Or.inl (switch_method_brute_force_error B _ _ _ _ _ _ _ _ _ _ hb)
    · exact Or.inr (switch_method_brute_force_error B _ _ _ _ _ _ _ _ _ _ hb)
  have hpass : (V1.cols : Int) = to_int V0.cols →
      (construct_collision_candidates_continuous B V0 V1 codim_V false E F candidates
          inflation_radius .BRUTE_FORCE can_collide = ⟨[], .error .codim_index_assert⟩ ∨
        construct_collision_candidates_continuous B V0 V1 codim_V false E F candidates
          inflation_radius .BRUTE_FORCE can_collide = ⟨[], .error .edge_index_assert⟩) := by
    intro hc
    rw [construct_collision_candidates_continuous_eq]
    have : Traced.assert (S := S) ((V1.cols : Int) == to_int V0.cols) .cols_assert
        = ⟨[], .ok ()⟩ := by simp [Traced.assert, hc]
    rw [this]
    rcases hsw (.swept V0 V1) with h | h
    · left
      rw [Traced.bind_of_ok rfl, h]
      rfl
    · right
      rw [Traced.bind_of_ok rfl, h]
      rfl
  refine ⟨?_, hpass, ?_, ?_⟩
  · rw [construct_collision_candidates_eq]
    exact hsw _
  · intro hc
    rw [construct_collision_candidates_continuous_eq]
    have : Traced.assert (S := S) ((V1.cols : Int) == to_int V0.cols) .cols_assert
        = ⟨[], .error .cols_assert⟩ := by simp [Traced.assert, hc]
    rw [this]
    rfl
  · intro hcols hint
    exact hpass (by rw [to_int_of_lt hint, hcols])

/-- Witness for the amended C6: two vertices and one edge `(0, 2)`, with `V1`
of the same shape as `V0`.  Both dispatchers invoke no backend entry point and
fail at `assert(E(ei, ej) < num_vertices)`. -/
theorem index_validation_brute_force_witness :
    construct_collision_candidates (ref_backend Int) (sample_V 2 2) VectorXi.empty false
        (DenseMatrix.ofRows 2 0 [[0, 2]]) no_F ⟨[], [], []⟩ 0 .BRUTE_FORCE always_collide
      = ⟨[], .error .edge_index_assert⟩ ∧
    construct_collision_candidates_continuous (ref_backend Int) (sample_V 2 2)
        (sample_V 2 2) VectorXi.empty false (DenseMatrix.ofRows 2 0 [[0, 2]]) no_F
        ⟨[], [], []⟩ 0 .BRUTE_FORCE always_collide = ⟨[], .error .edge_index_assert⟩ ∧
    (construct_collision_candidates (ref_backend Int) (sample_V 2 2) VectorXi.empty false
        (DenseMatrix.ofRows 2 0 [[0, 2]]) no_F ⟨[], [], []⟩ 0 .BRUTE_FORCE always_collide
        = ⟨[], .error .codim_index_assert⟩ ∨
      construct_collision_candidates (ref_backend Int) (sample_V 2 2) VectorXi.empty false
        (DenseMatrix.ofRows 2 0 [[0, 2]]) no_F ⟨[], [], []⟩ 0 .BRUTE_FORCE always_collide
        = ⟨[], .error .edge_index_assert⟩) ∧
    (construct_collision_candidates_continuous (ref_backend Int) (sample_V 2 2)
        (sample_V 2 2) VectorXi.empty false (DenseMatrix.ofRows 2 0 [[0, 2]]) no_F
        ⟨[], [], []⟩ 0 .BRUTE_FORCE always_collide = ⟨[], .error .codim_index_assert⟩ ∨
      construct_collision_candidates_continuous (ref_backend Int) (sample_V 2 2)
        (sample_V 2 2) VectorXi.empty false (DenseMatrix.ofRows 2 0 [[0, 2]]) no_F
        ⟨[], [], []⟩ 0 .BRUTE_FORCE always_collide = ⟨[], .error .edge_index_assert⟩) :=
  ⟨by rfl, by rfl,
    (index_validation_brute_force (ref_backend Int) (sample_V 2 2) (sample_V 2 2)
      VectorXi.empty (DenseMatrix.ofRows 2 0 [[0, 2]]) no_F ⟨[], [], []⟩ 0 always_collide
      (Or.inr ⟨0, by decide, 1, by decide, by decide, by decide⟩)).1,
    (index_validation_brute_force (ref_backend Int) (sample_V 2 2) (sample_V 2 2)
      VectorXi.empty (DenseMatrix.ofRows 2 0 [[0, 2]]) no_F ⟨[], [], []⟩ 0 always_collide
      (Or.inr ⟨0, by decide, 1, by decide, by decide, by decide⟩)).2.2.2 rfl (by decide)⟩

/-! ## Shape validation in continuous mode -/

/-- Counterexample to C8: `V0` has 2 rows and `V1` has 3 rows, both with 2
columns.  The continuous dispatcher does not fail and invokes the backend. -/
theorem shape_validation_counterexample :
    construct_collision_candidates_continuous (ref_backend Int) (sample_V 2 2)
        (sample_V 3 2) VectorXi.empty true (DenseMatrix.ofRows 2 0 [[0, 1]]) no_F
        ⟨[], [], []⟩ 0 .BRUTE_FORCE always_collide
      = ⟨[.detect_collision_candidates_brute_force (.swept (sample_V 2 2) (sample_V 3 2))
            (DenseMatrix.ofRows 2 0 [[0, 1]]) no_F ⟨[], [], []⟩ true false false true 0
            (adjusted_can_collide [] always_collide)],
          .ok ⟨[], [], []⟩⟩ := by
  rfl

/-- C8, amended (shape validation in continuous mode).  For every method, the
continuous dispatcher called with `V0` and `V1` whose numbers of columns
differ (the width of `V0` being representable in `int dim`) fails at
`assert(V1.cols() == dim)` and invokes no backend entry point. -/
theorem continuous_cols_mismatch_fails {S G H : Type} (B : Backend S G H)
    (V0 V1 : MatrixXd S) (codim_V : VectorXi) (include_all_vertices : Bool)
    (E F : MatrixXi) (candidates : Candidates) (inflation_radius : S)
    (method : BroadPhaseMethod) (can_collide : Nat → Nat → Bool)
    (hint : V0.cols < 2 ^ 31) (hne : V1.cols ≠ V0.cols) :
    construct_collision_candidates_continuous B V0 V1 codim_V include_all_vertices E F
        candidates inflation_radius method can_collide = ⟨[], .error .cols_assert⟩ := by
  rw [construct_collision_candidates_continuous_eq]
  have : Traced.assert (S := S) ((V1.cols : Int) == to_int V0.cols) .cols_assert
      = ⟨[], .error .cols_assert⟩ := by
    simp [Traced.assert, to_int_of_lt hint, hne]
  rw [this]
  rfl

/-- Witness for the amended C8: `V0` with 2 columns and `V1` with 3. -/
theorem continuous_cols_mismatch_fails_witness :
    construct_collision_candidates_continuous (ref_backend Int) (sample_V 4 2)
        (sample_V 4 3) VectorXi.empty true square_E square_F ⟨[], [], []⟩ 0 .HASH_GRID
        always_collide = ⟨[], .error .cols_assert⟩ :=
  continuous_cols_mismatch_fails (ref_backend Int) (sample_V 4 2) (sample_V 4 3)
    VectorXi.empty true square_E square_F ⟨[], [], []⟩ 0 .HASH_GRID always_collide
    (by decide) (by decide)

/-! ## The hash-grid case -/

theorem Traced.bind_invoke_ok_inv {S α β : Type} {c0 : Call S} {r : Except Failure α}
    {f : α → Traced S β} {b : β} (h : ((Traced.invoke c0 r).bind f).outcome = .ok b) :
    ∃ a, r = .ok a ∧ (f a).outcome = .ok b ∧
      ((Traced.invoke c0 r).bind f).calls = c0 :: (f a).calls := by
  obtain ⟨a, ha, hf⟩ := Traced.bind_outcome_ok.mp h
  exact ⟨a, ha, hf, by rw [Traced.bind_calls_of_ok ha]; rfl⟩

theorem hash_grid_calls_of_ok {S G H : Type} (B : Backend S G H) (P : Vertices S)
    (num_vertices : Nat) (dim : Int) (codim_V : VectorXi) (include_all_vertices : Bool)
    (E F : MatrixXi) (inflation_radius : S) (can_collide : Nat → Nat → Bool)
    (c : Candidates)
    (h : (switch_method B P num_vertices dim codim_V include_all_vertices E F
      ⟨[], [], []⟩ inflation_radius .HASH_GRID can_collide).outcome = .ok c) :
    (switch_method B P num_vertices dim codim_V include_all_vertices E F
      ⟨[], [], []⟩ inflation_radius .HASH_GRID can_collide).calls =
      hash_grid_calls P dim codim_V include_all_vertices E F inflation_radius can_collide := by
  unfold switch_method at h ⊢
  unfold hash_grid_calls
  obtain ⟨g0, _, h, e⟩ := Traced.bind_invoke_ok_inv h
  rw [e]; clear e
  obtain ⟨g1, _, h, e⟩ := Traced.bind_invoke_ok_inv h
  rw [e]; clear e
  obtain ⟨g2, h2, h⟩ := Traced.bind_outcome_ok.mp h
  rw [Traced.bind_calls_of_ok h2]
  have e2 : (if include_all_vertices = true then
        Traced.invoke (.addVertices P inflation_radius)
          (B.addVertices g1 P inflation_radius)
      else
        Traced.bind (Traced.invoke (.addVerticesFromEdges P E inflation_radius)
          (B.addVerticesFromEdges g1 P E inflation_radius)) fun hash_grid =>
        Traced.invoke (.addSelectVertices P codim_V inflation_radius)
          (B.addSelectVertices hash_grid P codim_V inflation_radius)).calls =
      (if include_all_vertices = true then [Call.addVertices P inflation_radius]
       else [.addVerticesFromEdges P E inflation_radius,
         .addSelectVertices P codim_V inflation_radius]) := by
    cases include_all_vertices with
    | true => rfl
    | false =>
      simp only [Bool.false_eq_true, if_false] at h2 ⊢
      obtain ⟨_, _, _, e⟩ := Traced.bind_invoke_ok_inv h2
      rw [e]; rfl
  rw [e2]; clear e2 h2
  obtain ⟨g3, _, h, e⟩ := Traced.bind_invoke_ok_inv h
  rw [e]; clear e
  obtain ⟨g4, h4, h⟩ := Traced.bind_outcome_ok.mp h
  rw [Traced.bind_calls_of_ok h4]
  have e4 : (if (dim == 3) = true then
        Traced.invoke (.addFaces P F inflation_radius) (B.addFaces g3 P F inflation_radius)
      else (⟨[], .ok g3⟩ : Traced S G)).calls =
      (if (dim == 3) = true then [Call.addFaces P F inflation_radius] else []) := by
    split <;> rfl
  rw [e4]; clear e4 h4
  have e5 : (if (dim == 2) = true then
        Traced.bind (Traced.invoke (.getVertexEdgePairs E [] can_collide)
          (B.getVertexEdgePairs g4 E [] can_collide)) fun r =>
        (⟨[], .ok { ev_candidates := r.2, ee_candidates := [], fv_candidates := [] }⟩ :
          Traced S Candidates)
      else
        Traced.bind (Traced.invoke (.getEdgeEdgePairs E [] can_collide)
          (B.getEdgeEdgePairs g4 E [] can_collide)) fun r =>
        Traced.bind (Traced.invoke (.getFaceVertexPairs F [] can_collide)
          (B.getFaceVertexPairs r.1 F [] can_collide)) fun r' =>
        ⟨[], .ok { ev_candidates := [], ee_candidates := r.2, fv_candidates := r'.2 }⟩).calls =
      (if (dim == 2) = true then [Call.getVertexEdgePairs E [] can_collide]
       else [.getEdgeEdgePairs E [] can_collide, .getFaceVertexPairs F [] can_collide]) := by
    by_cases hd : (dim == 2) = true
    · simp only [hd, if_true] at h ⊢
      obtain ⟨_, _, _, e⟩ := Traced.bind_invoke_ok_inv h
      exact e
    · simp only [hd, if_false] at h ⊢
      obtain ⟨_, _, h, e⟩ := Traced.bind_invoke_ok_inv h
      refine e.trans ?_
      obtain ⟨_, _, _, e'⟩ := Traced.bind_invoke_ok_inv h
      exact congrArg (List.cons _) e'
  rw [e5]
  simp

theorem mem_matrix_subscripts (E : MatrixXi) (v : Nat) :
    v ∈ E.subscripts ↔ ∃ ei, ei < E.rows ∧ ∃ ej, ej < E.cols ∧ to_size_t (E.coeff ei ej) = v := by
  simp [DenseMatrix.subscripts, List.mem_flatMap, List.mem_map, List.mem_range]

theorem mem_vector_subscripts (c : VectorXi) (v : Nat) :
    v ∈ c.subscripts ↔ ∃ i, i < c.size ∧ to_size_t (c.coeff i) = v := by
  simp [VectorXi.subscripts, List.mem_map, List.mem_range]

theorem inserted_vertices_hash_grid_calls {S : Type} (P : Vertices S) (dim : Int)
    (codim_V : VectorXi) (include_all_vertices : Bool) (E F : MatrixXi)
    (inflation_radius : S) (can_collide : Nat → Nat → Bool) :
    inserted_vertices
        (hash_grid_calls P dim codim_V include_all_vertices E F inflation_radius can_collide) =
      if include_all_vertices then List.range P.num_vertices
      else E.subscripts ++ codim_V.subscripts := by
  cases include_all_vertices <;> by_cases h3 : (dim == 3) = true <;>
    by_cases h2 : (dim == 2) = true <;>
    simp [hash_grid_calls, inserted_vertices, Call.inserted_vertices, h2, h3]

theorem hash_grid_calls_mirror {S : Type} (P : Vertices S) (dim : Int)
    (codim_V : VectorXi) (include_all_vertices : Bool) (E F : MatrixXi)
    (inflation_radius : S) (can_collide : Nat → Nat → Bool) (mask : List Bool)
    (hch : ∀ v, included mask v ↔
      ((∃ i, i < codim_V.size ∧ to_size_t (codim_V.coeff i) = v) ∨
        ∃ ei, ei < E.rows ∧ ∃ ej, ej < E.cols ∧ to_size_t (E.coeff ei ej) = v)) :
    insertion_mirrors_mask mask P.num_vertices dim include_all_vertices E
      (hash_grid_calls P dim codim_V include_all_vertices E F inflation_radius can_collide) := by
  refine ⟨?_, ?_, ?_, ?_⟩
  · intro hf v
    rw [inserted_vertices_hash_grid_calls, hf]
    simp only [Bool.false_eq_true, if_false, List.mem_append, mem_matrix_subscripts,
      mem_vector_subscripts]
    have := hch v
    unfold included at this
    rw [this]
    exact Or.comm
  · intro ht v hv
    rw [inserted_vertices_hash_grid_calls, ht]
    simpa using hv
  · exact ⟨.addEdges P E inflation_radius, by simp [hash_grid_calls], rfl⟩
  · constructor
    · rintro ⟨call, hmem, hface⟩
      by_contra hd
      have h3 : ¬ (dim == 3) = true := by simpa using hd
      cases include_all_vertices <;> by_cases h2 : (dim == 2) = true <;>
        simp only [hash_grid_calls, h2, h3, if_true, if_false, Bool.false_eq_true,
          List.append_nil, List.cons_append, List.nil_append, List.mem_cons,
          List.not_mem_nil, or_false] at hmem <;>
        rcases hmem with rfl | rfl | rfl | rfl | rfl | rfl | rfl <;>
        exact hface
    · intro hd
      refine ⟨.addFaces P F inflation_radius, ?_, trivial⟩
      subst hd
      cases include_all_vertices <;> simp [hash_grid_calls]

theorem switch_method_hash_grid_never_excluded {S G H : Type} (B : Backend S G H)
    (P : Vertices S) (num_vertices : Nat) (dim : Int) (codim_V : VectorXi)
    (E F : MatrixXi) (inflation_radius : S) (can_collide : Nat → Nat → Bool)
    (mask : List Bool)
    (hch : ∀ v, included mask v ↔
      ((∃ i, i < codim_V.size ∧ to_size_t (codim_V.coeff i) = v) ∨
        ∃ ei, ei < E.rows ∧ ∃ ej, ej < E.cols ∧ to_size_t (E.coeff ei ej) = v)) :
    ∀ call ∈ (switch_method B P num_vertices dim codim_V false E F ⟨[], [], []⟩
        inflation_radius .HASH_GRID can_collide).calls,
      ∀ v ∈ call.inserted_vertices, mask[v]? = some false := by
  have nope : ∀ v, v ∈ ([] : List Nat) → mask[v]? = some false := by
    intro v hv; cases hv
  have hE : ∀ v ∈ E.subscripts, mask[v]? = some false := by
    intro v hv
    exact (hch v).mpr (Or.inr ((mem_matrix_subscripts E v).mp hv))
  have hc : ∀ v ∈ codim_V.subscripts, mask[v]? = some false := by
    intro v hv
    exact (hch v).mpr (Or.inl ((mem_vector_subscripts codim_V v).mp hv))
  unfold switch_method
  refine Traced.all_calls_bind (Traced.all_calls_invoke nope) fun _ => ?_
  refine Traced.all_calls_bind (Traced.all_calls_invoke nope) fun _ => ?_
  refine Traced.all_calls_bind ?_ fun _ => ?_
  · simp only [Bool.false_eq_true, if_false]
    exact Traced.all_calls_bind (Traced.all_calls_invoke hE) fun _ =>
      Traced.all_calls_invoke hc
  refine Traced.all_calls_bind (Traced.all_calls_invoke nope) fun _ => ?_
  refine Traced.all_calls_bind ?_ fun _ => ?_
  · split
    · exact Traced.all_calls_invoke nope
    · exact Traced.all_calls_nil
  split
  · exact Traced.all_calls_bind (Traced.all_calls_invoke nope) fun _ => Traced.all_calls_nil
  · exact Traced.all_calls_bind (Traced.all_calls_invoke nope) fun _ =>
      Traced.all_calls_bind (Traced.all_calls_invoke nope) fun _ => Traced.all_calls_nil

/-- C10 (hash-grid insertion mirrors the mask).  For method `HASH_GRID`, a
geometry whose edge and codimensional indices are in range, and `V1` of the
same width as `V0`, let `mask` be the result of `build_ignore_vertices` for the
vertex count of `V0`, `codim_V` and `E`.  For the static dispatcher on `V0`
and for the continuous one on `V0, V1`: with `include_all_vertices = false`
no invocation inserts a vertex whose mask entry is not `false`; and when the
call returns, the inserted vertex indices are exactly the `v` with
`mask[v] = false` if `include_all_vertices = false`, every vertex is inserted
if `include_all_vertices = true`, the edges `E` are inserted, and faces are
inserted if and only if the dimension is 3. -/
theorem hash_grid_insertion_mirrors_mask {S G H : Type} (B : Backend S G H)
    (V0 V1 : MatrixXd S) (codim_V : VectorXi) (include_all_vertices : Bool)
    (E F : MatrixXi) (candidates : Candidates) (inflation_radius : S)
    (can_collide : Nat → Nat → Bool)
    (hrows : V0.rows < 2 ^ 64) (hint : V0.cols < 2 ^ 31) (hcols : V1.cols = V0.cols)
    (hc : codim_V.in_range V0.rows) (hE : E.in_range V0.rows) :
    ∃ mask, build_ignore_vertices V0.rows codim_V E [] = .ok mask ∧
      (include_all_vertices = false →
        ∀ v ∈ inserted_vertices (construct_collision_candidates B V0 codim_V
          include_all_vertices E F candidates inflation_radius .HASH_GRID can_collide).calls,
          mask[v]? = some false) ∧
      (include_all_vertices = false →
        ∀ v ∈ inserted_vertices (construct_collision_candidates_continuous B V0 V1 codim_V
          include_all_vertices E F candidates inflation_radius .HASH_GRID can_collide).calls,
          mask[v]? = some false) ∧
      (∀ c, (construct_collision_candidates B V0 codim_V include_all_vertices E F candidates
          inflation_radius .HASH_GRID can_collide).outcome = .ok c →
        insertion_mirrors_mask mask V0.rows V0.cols include_all_vertices E
          (construct_collision_candidates B V0 codim_V include_all_vertices E F candidates
            inflation_radius .HASH_GRID can_collide).calls) ∧
      (∀ c, (construct_collision_candidates_continuous B V0 V1 codim_V include_all_vertices
          E F candidates inflation_radius .HASH_GRID can_collide).outcome = .ok c →
        insertion_mirrors_mask mask V0.rows V0.cols include_all_vertices E
          (construct_collision_candidates_continuous B V0 V1 codim_V include_all_vertices
            E F candidates inflation_radius .HASH_GRID can_collide).calls) := by
  have conv : ∀ x : Int, 0 ≤ x → x < V0.rows → to_size_t x < V0.rows := by
    intro x h0 hx
    have : (V0.rows : Int) < 2 ^ 64 := by exact_mod_cast hrows
    rw [to_size_t_of_nonneg h0 (by omega)]
    omega
  obtain ⟨mask, hb, _, hch⟩ := build_ignore_vertices_ok V0.rows codim_V E
    (fun i hi => conv _ (hc i hi).1 (hc i hi).2)
    (fun ei hei ej hej => conv _ (hE ei hei ej hej).1 (hE ei hei ej hej).2)
  rw [construct_collision_candidates_eq, continuous_eq_switch B V0 V1 hcols hint,
    to_int_of_lt hint]
  refine ⟨mask, hb, ?_, ?_, ?_, ?_⟩
  · intro hf v hv
    subst hf
    obtain ⟨call, hcall, hv⟩ := List.mem_flatMap.mp hv
    exact switch_method_hash_grid_never_excluded B _ _ _ _ _ _ _ _ mask hch call hcall v hv
  · intro hf v hv
    subst hf
    obtain ⟨call, hcall, hv⟩ := List.mem_flatMap.mp hv
    exact switch_method_hash_grid_never_excluded B _ _ _ _ _ _ _ _ mask hch call hcall v hv
  · intro c hok
    rw [hash_grid_calls_of_ok B _ _ _ _ _ _ _ _ _ c hok]
    exact hash_grid_calls_mirror (.fixed V0) _ _ _ _ _ _ _ mask hch
  · intro c hok
    rw [hash_grid_calls_of_ok B _ _ _ _ _ _ _ _ _ c hok]
    exact hash_grid_calls_mirror (.swept V0 V1) _ _ _ _ _ _ _ mask hch

/-- Witness for C10: nine vertices in 2D, one edge joining 2 and 5,
codimensional vertex 7, `include_all_vertices = false`.  The call returns and
inserts the vertices 2, 5 and 7. -/
theorem hash_grid_insertion_mirrors_mask_witness :
    (construct_collision_candidates (ref_backend Int) (sample_V 9 2) (VectorXi.ofList [7])
        false edge_2_5 no_F ⟨[], [], []⟩ 0 .HASH_GRID always_collide).outcome
      = .ok ⟨[⟨0, 7⟩], [], []⟩ ∧
    inserted_vertices (construct_collision_candidates (ref_backend Int) (sample_V 9 2)
        (VectorXi.ofList [7]) false edge_2_5 no_F ⟨[], [], []⟩ 0 .HASH_GRID
        always_collide).calls = [2, 5, 7] ∧
    ∃ mask, build_ignore_vertices (sample_V 9 2).rows (VectorXi.ofList [7]) edge_2_5 []
        = .ok mask ∧
      (false = false →
        ∀ v ∈ inserted_vertices (construct_collision_candidates (ref_backend Int)
          (sample_V 9 2) (VectorXi.ofList [7]) false edge_2_5 no_F ⟨[], [], []⟩ 0
          .HASH_GRID always_collide).calls,
          mask[v]? = some false) ∧
      (false = false →
        ∀ v ∈ inserted_vertices (construct_collision_candidates_continuous
          (ref_backend Int) (sample_V 9 2) (sample_V 9 2) (VectorXi.ofList [7]) false
          edge_2_5 no_F ⟨[], [], []⟩ 0 .HASH_GRID always_collide).calls,
          mask[v]? = some false) ∧
      (∀ c, (construct_collision_candidates (ref_backend Int) (sample_V 9 2)
          (VectorXi.ofList [7]) false edge_2_5 no_F ⟨[], [], []⟩ 0 .HASH_GRID
          always_collide).outcome = .ok c →
        insertion_mirrors_mask mask (sample_V 9 2).rows (sample_V 9 2).cols false edge_2_5
          (construct_collision_candidates (ref_backend Int) (sample_V 9 2)
            (VectorXi.ofList [7]) false edge_2_5 no_F ⟨[], [], []⟩ 0 .HASH_GRID
            always_collide).calls) ∧
      (∀ c, (construct_collision_candidates_continuous (ref_backend Int) (sample_V 9 2)
          (sample_V 9 2) (VectorXi.ofList [7]) false edge_2_5 no_F ⟨[], [], []⟩ 0
          .HASH_GRID always_collide).outcome = .ok c →
        insertion_mirrors_mask mask (sample_V 9 2).rows (sample_V 9 2).cols false edge_2_5
          (construct_collision_candidates_continuous (ref_backend Int) (sample_V 9 2)
            (sample_V 9 2) (VectorXi.ofList [7]) false edge_2_5 no_F ⟨[], [], []⟩ 0
            .HASH_GRID always_collide).calls) :=
  ⟨by rfl, by rfl,
    hash_grid_insertion_mirrors_mask (ref_backend Int) (sample_V 9 2) (sample_V 9 2)
      (VectorXi.ofList [7]) false edge_2_5 no_F ⟨[], [], []⟩ 0 always_collide
      (by decide) (by decide) rfl (by decide) (by decide)⟩

/-! ## Dimension validation -/

/-- Counterexample to C7: the square mesh with a vertex configuration of 4
columns.  With `BRUTE_FORCE` the backend is invoked with the three category
flags off and the call returns an empty candidate set; with `HASH_GRID` the
grid is filled and queried and the call returns edge-edge candidates; with
`SPATIAL_HASH` the hash is built and queried.  No call fails. -/
theorem dimension_validation_counterexample :
    (construct_collision_candidates (ref_backend Int) (sample_V 4 4) VectorXi.empty true
        square_E square_F ⟨[], [], []⟩ 0 .BRUTE_FORCE always_collide
      = ⟨[.detect_collision_candidates_brute_force (.fixed (sample_V 4 4)) square_E square_F
            ⟨[], [], []⟩ false false false true 0 (adjusted_can_collide [] always_collide)],
          .ok ⟨[], [], []⟩⟩) ∧
    (construct_collision_candidates (ref_backend Int) (sample_V 4 4) VectorXi.empty true
        square_E square_F ⟨[], [], []⟩ 0 .HASH_GRID always_collide
      = ⟨[.HashGrid, .resize (.fixed (sample_V 4 4)) square_E 0,
            .addVertices (.fixed (sample_V 4 4)) 0, .addEdges (.fixed (sample_V 4 4)) square_E 0,
            .getEdgeEdgePairs square_E [] always_collide,
            .getFaceVertexPairs square_F [] always_collide],
          .ok ⟨[], [⟨0, 1⟩, ⟨0, 2⟩, ⟨0, 3⟩, ⟨1, 2⟩, ⟨1, 3⟩, ⟨2, 3⟩], []⟩⟩) ∧
    (construct_collision_candidates_continuous (ref_backend Int) (sample_V 4 4)
        (sample_V 4 4) VectorXi.empty true square_E square_F ⟨[], [], []⟩ 0 .SPATIAL_HASH
        always_collide
      = ⟨[.SpatialHash (.swept (sample_V 4 4) (sample_V 4 4)) square_E square_F 0,
            .queryMeshForCandidates (.swept (sample_V 4 4) (sample_V 4 4)) square_E square_F
              ⟨[], [], []⟩ false false false],
          .ok ⟨[], [], []⟩⟩) :=
  ⟨by rfl, by rfl, by rfl⟩

theorem dim_flags_off {n : Nat} (hint : n < 2 ^ 31) (h2 : n ≠ 2) (h3 : n ≠ 3) :
    (to_int n == 2) = false ∧ (to_int n == 3) = false := by
  rw [to_int_of_lt hint]
  constructor
  · simpa using (by exact_mod_cast h2 : (n : Int) ≠ 2)
  · simpa using (by exact_mod_cast h3 : (n : Int) ≠ 3)

/-- C7, amended (dimension validation).  The dispatcher performs no dimension
check.  For a vertex configuration `V0` whose number of columns is neither 2
nor 3 (and is representable in `int dim`), a geometry with in-range edge and
codimensional indices and `V1` of the same width as `V0`, in the static
dispatcher on `V0` and in the continuous one on `V0, V1`:
`BRUTE_FORCE` makes exactly one backend invocation, the brute-force detection
with the three category flags off, and the outcome of the call is the outcome
of that invocation; `SPATIAL_HASH` with `include_all_vertices = true` builds
the spatial hash and then queries it with the three category flags off;
`HASH_GRID`, when the call returns, has constructed and resized the grid,
inserted vertices and edges but no faces, and run the edge-edge and the
face-vertex query. -/
theorem dimension_not_validated {S G H : Type} (B : Backend S G H)
    (V0 V1 : MatrixXd S) (codim_V : VectorXi) (E F : MatrixXi) (candidates : Candidates)
    (inflation_radius : S) (can_collide : Nat → Nat → Bool)
    (hint : V0.cols < 2 ^ 31) (h2 : V0.cols ≠ 2) (h3 : V0.cols ≠ 3)
    (hcols : V1.cols = V0.cols) (hrows : V0.rows < 2 ^ 64)
    (hc : codim_V.in_range V0.rows) (hE : E.in_range V0.rows) :
    (∀ include_all_vertices, ∃ pred : Nat → Nat → Bool,
      construct_collision_candidates B V0 codim_V include_all_vertices E F candidates
          inflation_radius .BRUTE_FORCE can_collide =
        ⟨[.detect_collision_candidates_brute_force (.fixed V0) E F ⟨[], [], []⟩
            false false false true inflation_radius pred],
          B.detect_collision_candidates_brute_force (.fixed V0) E F ⟨[], [], []⟩
            false false false true inflation_radius pred⟩ ∧
      construct_collision_candidates_continuous B V0 V1 codim_V include_all_vertices E F
          candidates inflation_radius .BRUTE_FORCE can_collide =
        ⟨[.detect_collision_candidates_brute_force (.swept V0 V1) E F ⟨[], [], []⟩
            false false false true inflation_radius pred],
          B.detect_collision_candidates_brute_force (.swept V0 V1) E F ⟨[], [], []⟩
            false false false true inflation_radius pred⟩) ∧
    (construct_collision_candidates B V0 codim_V true E F candidates inflation_radius
        .SPATIAL_HASH can_collide =
      Traced.bind (Traced.invoke (.SpatialHash (.fixed V0) E F inflation_radius)
        (B.SpatialHash (.fixed V0) E F inflation_radius)) fun sh =>
      Traced.bind (Traced.invoke
        (.queryMeshForCandidates (.fixed V0) E F ⟨[], [], []⟩ false false false)
        (B.queryMeshForCandidates sh (.fixed V0) E F ⟨[], [], []⟩ false false false)) fun r =>
      ⟨[], .ok r.2⟩) ∧
    (construct_collision_candidates_continuous B V0 V1 codim_V true E F candidates
        inflation_radius .SPATIAL_HASH can_collide =
      Traced.bind (Traced.invoke (.SpatialHash (.swept V0 V1) E F inflation_radius)
        (B.SpatialHash (.swept V0 V1) E F inflation_radius)) fun sh =>
      Traced.bind (Traced.invoke
        (.queryMeshForCandidates (.swept V0 V1) E F ⟨[], [], []⟩ false false false)
        (B.queryMeshForCandidates sh (.swept V0 V1) E F ⟨[], [], []⟩ false false false))
        fun r =>
      ⟨[], .ok r.2⟩) ∧
    (∀ include_all_vertices c,
      (construct_collision_candidates B V0 codim_V include_all_vertices E F candidates
        inflation_radius .HASH_GRID can_collide).outcome = .ok c →
      (construct_collision_candidates B V0 codim_V include_all_vertices E F candidates
        inflation_radius .HASH_GRID can_collide).calls =
        [.HashGrid, .resize (.fixed V0) E inflation_radius] ++
          (if include_all_vertices then [.addVertices (.fixed V0) inflation_radius]
           else [.addVerticesFromEdges (.fixed V0) E inflation_radius,
             .addSelectVertices (.fixed V0) codim_V inflation_radius]) ++
          [.addEdges (.fixed V0) E inflation_radius,
            .getEdgeEdgePairs E [] can_collide, .getFaceVertexPairs F [] can_collide]) ∧
    (∀ include_all_vertices c,
      (construct_collision_candidates_continuous B V0 V1 codim_V include_all_vertices E F
        candidates inflation_radius .HASH_GRID can_collide).outcome = .ok c →
      (construct_collision_candidates_continuous B V0 V1 codim_V include_all_vertices E F
        candidates inflation_radius .HASH_GRID can_collide).calls =
        [.HashGrid, .resize (.swept V0 V1) E inflation_radius] ++
          (if include_all_vertices then [.addVertices (.swept V0 V1) inflation_radius]
           else [.addVerticesFromEdges (.swept V0 V1) E inflation_radius,
             .addSelectVertices (.swept V0 V1) codim_V inflation_radius]) ++
          [.addEdges (.swept V0 V1) E inflation_radius,
            .getEdgeEdgePairs E [] can_collide, .getFaceVertexPairs F [] can_collide]) := by
  obtain ⟨f2, f3⟩ := dim_flags_off hint h2 h3
  have hg : ∀ (P : Vertices S) (iav : Bool),
      hash_grid_calls P (to_int V0.cols) codim_V iav E F inflation_radius can_collide =
        [.HashGrid, .resize P E inflation_radius] ++
          (if iav then [.addVertices P inflation_radius]
           else [.addVerticesFromEdges P E inflation_radius,
             .addSelectVertices P codim_V inflation_radius]) ++
          [.addEdges P E inflation_radius,
            .getEdgeEdgePairs E [] can_collide, .getFaceVertexPairs F [] can_collide] := by
    intro P iav
    cases iav <;> simp [hash_grid_calls, f2, f3]
  refine ⟨?_, ?_, ?_, ?_, ?_⟩
  · intro iav
    rw [construct_collision_candidates_eq, continuous_eq_switch B V0 V1 hcols hint]
    cases iav with
    | true =>
      refine ⟨adjusted_can_collide [] can_collide, ?_, ?_⟩ <;>
        rw [switch_method_brute_force_all, f2, f3]
    | false =>
      obtain ⟨mask, hb, _⟩ := build_ignore_vertices_in_range V0.rows codim_V E hrows hc hE
      refine ⟨adjusted_can_collide mask can_collide, ?_, ?_⟩ <;>
        rw [switch_method_brute_force_mask B _ _ _ _ _ _ _ _ _ mask hb, f2, f3]
  · rw [construct_collision_candidates_eq]
    simp only [switch_method, f2, f3, Traced.assert, if_true]
    rfl
  · rw [continuous_eq_switch B V0 V1 hcols hint]
    simp only [switch_method, f2, f3, Traced.assert, if_true]
    rfl
  · intro iav c hok
    rw [construct_collision_candidates_eq] at hok ⊢
    rw [hash_grid_calls_of_ok B _ _ _ _ _ _ _ _ _ c hok, hg]
  · intro iav c hok
    rw [continuous_eq_switch B V0 V1 hcols hint] at hok ⊢
    rw [hash_grid_calls_of_ok B _ _ _ _ _ _ _ _ _ c hok, hg]

/-- Witness for the amended C7: the square mesh with a vertex configuration of
4 columns and the reference backend. -/
theorem dimension_not_validated_witness :
    (construct_collision_candidates (ref_backend Int) (sample_V 4 4) VectorXi.empty true
        square_E square_F ⟨[], [], []⟩ 0 .HASH_GRID always_collide).calls =
      [.HashGrid, .resize (.fixed (sample_V 4 4)) square_E 0] ++
        (if true = true then [.addVertices (.fixed (sample_V 4 4)) 0]
         else [.addVerticesFromEdges (.fixed (sample_V 4 4)) square_E 0,
           .addSelectVertices (.fixed (sample_V 4 4)) VectorXi.empty 0]) ++
        [.addEdges (.fixed (sample_V 4 4)) square_E 0,
          .getEdgeEdgePairs square_E [] always_collide,
          .getFaceVertexPairs square_F [] always_collide] :=
  (dimension_not_validated (ref_backend Int) (sample_V 4 4) (sample_V 4 4) VectorXi.empty
    square_E square_F ⟨[], [], []⟩ 0 always_collide (by decide) (by decide) (by decide) rfl
    (by decide) (by decide) (by decide)).2.2.2.1 true
    ⟨[], [⟨0, 1⟩, ⟨0, 2⟩, ⟨0, 3⟩, ⟨1, 2⟩, ⟨1, 3⟩, ⟨2, 3⟩], []⟩ (by rfl)

end ipc
